import Mathlib

/-!
A shallow embedding of the cookie-bowl physics program
(cookie_defender_bowl.py): the data model, the elliptical-bowl boundary
collider, pairwise contact resolution, spawn/capacity accounting, the
rate-based autodrop accumulator and the defender detection-feed intake.
Python floats are modelled by real numbers; every random draw made by the
source is an explicit parameter of the corresponding definition.
Tkinter canvas handles (item_id, shadow_id, highlight_id) and all
rendering-only code are omitted: they carry no simulation state.
-/

namespace CookieBowl

/-! ### Integer-valued tuning constants (from the source header) -/

def MAX_COOKIES : Nat := 260
def SLEEP_FRAMES : Nat := 18
def COLLISION_PASSES : Nat := 2
def SUBSTEPS : Nat := 2
def MAX_DROPS_PER_TICK : Nat := 6

/-! ### Defender feed model (computable part)

Models fetch-independent logic of the defender intake: the severity→color
lookup (defender_severity_to_cookie_color) and the delta/dedup core of
App._defender_sync_once.  A detection record carries the five fields the
source selects; the stable id is the string built at line 584 of the
source.  The PowerShell fetch itself is I/O and is out of scope: the sync
function takes the fetched threat list as input. -/

structure ThreatRecord where
  threatName : String
  detectionTime : String
  severityID : Option Int
  severity : Option String
  resources : String

/-- Character-list prefix test, used to implement Python's substring
operator. -/
def startsWithCh : List Char → List Char → Bool
  | [], _ => true
  | _ :: _, [] => false
  | p :: ps, c :: cs => p == c && startsWithCh ps cs

/-- Character-list substring test. -/
def hasSubCh (pat : List Char) : List Char → Bool
  | [] => startsWithCh pat []
  | c :: cs => startsWithCh pat (c :: cs) || hasSubCh pat cs

/-- Python's substring test (pat in s), on the character lists. -/
def containsSub (s pat : String) : Bool := hasSubCh pat.toList s.toList

/-- The severity-id fallback branch of defender_severity_to_cookie_color. -/
def sevIdColor : Option Int → String
  | none => "purple"
  | some i =>
    if i ≥ 5 then "red"
    else if i = 4 then "red"
    else if i = 2 ∨ i = 3 then "orange"
    else if i = 1 then "yellow"
    else "purple"

/-- defender_severity_to_cookie_color: text match first (Python truthiness:
an empty string behaves like None), then the numeric fallback. -/
def defender_severity_to_cookie_color (sid : Option Int) (stxt : Option String) : String :=
  match stxt with
  | some txt =>
    if txt = "" then sevIdColor sid
    else
      let s := txt.trim.toLower
      if containsSub s "severe" || containsSub s "high" then "red"
      else if containsSub s "moder" || containsSub s "medium" then "orange"
      else if containsSub s "low" then "yellow"
      else sevIdColor sid
  | none => sevIdColor sid

/-- Python str() of the optional severity id, as used inside the f-string. -/
def optIntStr : Option Int → String
  | none => "None"
  | some i => toString i

/-- The best-effort stable detection id rid built at source line 584. -/
def threat_rid (t : ThreatRecord) : String :=
  t.threatName ++ "|" ++ t.detectionTime ++ "|" ++ optIntStr t.severityID ++ "|" ++ t.resources

/-- The delta core of App._defender_sync_once: walk the fetched threat
list, collect the snapshot id set (a duplicate-free list models the Python
set) and enqueue one color per threat whose rid is absent from the
previous poll's id set.  Returns (new_colors, current_ids); the caller
then replaces the stored id set by current_ids and appends new_colors to
the pending queue. -/
def defender_sync_once (lastIds : List String) (threats : List ThreatRecord) :
    List String × List String :=
  threats.foldl
    (fun acc t =>
      let rid := threat_rid t
      let cur := if rid ∈ acc.2 then acc.2 else acc.2 ++ [rid]
      let colors :=
        if rid ∈ lastIds then acc.1
        else acc.1 ++ [defender_severity_to_cookie_color t.severityID t.severity]
      (colors, cur))
    ([], [])

noncomputable section

/-! ### Physics tuning constants (from the source header) -/

def GRAVITY_AIR : ℝ := 1750
def GRAVITY_WATER : ℝ := 720
def BOWL_RESTITUTION : ℝ := 0.45
def COOKIE_RESTITUTION : ℝ := 0.10
def FRICTION_AIR : ℝ := 0.985
def FRICTION_WATER : ℝ := 0.965
def SLEEP_SPEED : ℝ := 22
def OVERFLOW_AT : ℝ := 0.95
def HARD_STOP_AT : ℝ := 1.10
def WOBBLE_ACCEL : ℝ := 120
def WOBBLE_DAMP : ℝ := 0.10

/-- One simulated circle (dataclass CookieBody), canvas handles omitted. -/
structure CookieBody where
  colorName : String
  r : ℝ
  x : ℝ
  y : ℝ
  vx : ℝ
  vy : ℝ
  asleep : Bool
  sleepCounter : Nat
  underwater : Bool
  wobblePhase : ℝ
  wobbleFreq : ℝ

/-- The clamp helper of the source. -/
def clamp (v lo hi : ℝ) : ℝ := if v < lo then lo else if v > hi then hi else v

/-- The elliptical bowl (class EllipseBowlCollider).  rim_left/rim_right
are the cached results of _recalc_rim and bowl_area the cached result of
the _recalc_area grid sampling; all fields are immutable after
construction.  bowl_area is kept as stored data here because no claim
depends on its sampled value, only on how fill_ratio guards it. -/
structure EllipseBowlCollider where
  cx : ℝ
  cy : ℝ
  a : ℝ
  b : ℝ
  rim_y : ℝ
  rim_left : ℝ
  rim_right : ℝ
  bowl_area : ℝ

/-- _recalc_rim: half-width of the opening at the rim line, with the
degenerate fallback when the rim line lies outside the ellipse's
y-extent. -/
def recalc_rim (cx cy a b rim_y : ℝ) : ℝ × ℝ :=
  let dy := rim_y - cy
  let t := 1 - dy * dy / (b * b)
  if t ≤ 0 then (cx - a * 0.05, cx + a * 0.05)
  else (cx - a * Real.sqrt t, cx + a * Real.sqrt t)

def EllipseBowlCollider.opening_clamp_x (col : EllipseBowlCollider) (x r : ℝ) : ℝ :=
  clamp x (col.rim_left + r + 6) (col.rim_right - r - 6)

/-- The radius-shrunk semi-axis a, floored at 5 (collide_cookie line 275). -/
def shrunk_a (col : EllipseBowlCollider) (c : CookieBody) : ℝ := max 5 (col.a - c.r)

/-- The radius-shrunk semi-axis b, floored at 5 (collide_cookie line 276). -/
def shrunk_b (col : EllipseBowlCollider) (c : CookieBody) : ℝ := max 5 (col.b - c.r)

/-- The normalized squared offset s2 of the body center from the shrunk
ellipse (collide_cookie lines 277-282). -/
def shrunk_s2 (col : EllipseBowlCollider) (c : CookieBody) : ℝ :=
  let ex := (c.x - col.cx) / shrunk_a col c
  let ey := (c.y - col.cy) / shrunk_b col c
  ex * ex + ey * ey

/-- x component of the (unnormalized) gradient of the quadratic form at
the body's offset (collide_cookie line 293). -/
def grad_nx (col : EllipseBowlCollider) (c : CookieBody) : ℝ :=
  (c.x - col.cx) / (shrunk_a col c * shrunk_a col c)

/-- y component of the gradient (collide_cookie line 294). -/
def grad_ny (col : EllipseBowlCollider) (c : CookieBody) : ℝ :=
  (c.y - col.cy) / (shrunk_b col c * shrunk_b col c)

/-- math.hypot of the gradient (collide_cookie line 295). -/
def grad_nlen (col : EllipseBowlCollider) (c : CookieBody) : ℝ :=
  Real.sqrt (grad_nx col c * grad_nx col c + grad_ny col c * grad_ny col c)

/-- EllipseBowlCollider.collide_cookie, the two-zone boundary policy:
funnel clamp above rim_y - 0.6 r; otherwise test against the radius-shrunk
ellipse, possibly re-clamping near the rim when inside, or projecting back
onto the shrunk ellipse, reflecting the velocity's normal component with
BOWL_RESTITUTION and damping vx by 0.99 and vy by 0.995 when outside. -/
def EllipseBowlCollider.collide_cookie (col : EllipseBowlCollider) (c : CookieBody) :
    CookieBody :=
  if c.y < col.rim_y - c.r * 0.6 then { c with x := col.opening_clamp_x c.x c.r }
  else
    let s2 := shrunk_s2 col c
    if s2 ≤ 1 then
      if c.y < col.rim_y + c.r then { c with x := col.opening_clamp_x c.x c.r } else c
    else
      let s := if s2 > 1e-12 then Real.sqrt s2 else 1
      let c1 := { c with x := col.cx + (c.x - col.cx) / s, y := col.cy + (c.y - col.cy) / s }
      let nlen := grad_nlen col c
      if nlen < 1e-9 then c1
      else
        let nx := grad_nx col c / nlen
        let ny := grad_ny col c / nlen
        let vdotn := c1.vx * nx + c1.vy * ny
        let c2 := { c1 with vx := (c1.vx - (1 + BOWL_RESTITUTION) * vdotn * nx) * 0.99,
                            vy := (c1.vy - (1 + BOWL_RESTITUTION) * vdotn * ny) * 0.995 }
        if c2.y < col.rim_y + c2.r then { c2 with x := col.opening_clamp_x c2.x c2.r } else c2

/-! ### The app's fixed geometry (App.__init__, lines 359-369) -/

def canvas_w : ℝ := 760
def canvas_h : ℝ := 520
def bowl_cx : ℝ := canvas_w * 0.52
def bowl_cy : ℝ := canvas_h * 0.67
def bowl_a : ℝ := canvas_w * 0.235
def bowl_b : ℝ := canvas_h * 0.295
def app_rim_y : ℝ := canvas_h * 0.30
def water_y : ℝ := app_rim_y + bowl_b * 0.20

/-- The app's collider; the sampled bowl_area is left as a parameter since
collide_cookie never reads it and fill_ratio guards it with max 1. -/
def appCollider (area : ℝ) : EllipseBowlCollider :=
  { cx := bowl_cx, cy := bowl_cy, a := bowl_a, b := bowl_b, rim_y := app_rim_y
    rim_left := (recalc_rim bowl_cx bowl_cy bowl_a bowl_b app_rim_y).1
    rim_right := (recalc_rim bowl_cx bowl_cy bowl_a bowl_b app_rim_y).2
    bowl_area := area }

/-! ### Per-body step pieces (App methods) -/

/-- App._apply_underwater_mode: edge-triggered regime transition with the
one-time entry/exit velocity scaling (canvas recoloring omitted). -/
def apply_underwater_mode (waterY : ℝ) (c : CookieBody) : CookieBody :=
  if waterY ≤ c.y then
    if c.underwater then c
    else { c with underwater := true, vx := c.vx * 0.78, vy := c.vy * 0.60 }
  else
    if c.underwater then { c with underwater := false, vx := c.vx * 1.05 }
    else c

/-- App._underwater_wobble_ax: sinusoidal lateral acceleration faded out
near rest. -/
def underwater_wobble_ax (simT : ℝ) (c : CookieBody) : ℝ :=
  let speed := Real.sqrt (c.vx * c.vx + c.vy * c.vy)
  let fade := clamp (speed / (SLEEP_SPEED * 2.5)) 0 1
  WOBBLE_ACCEL * Real.sin (c.wobblePhase + (2 * Real.pi) * c.wobbleFreq * simT) * fade

/-- The per-body part of one substep of App._step (lines 775-793):
underwater-mode update, then — for awake bodies only — wobble, gravity,
integration, friction and the boundary collision. -/
def integrate_body (col : EllipseBowlCollider) (waterY subDt simT : ℝ)
    (c0 : CookieBody) : CookieBody :=
  let c := apply_underwater_mode waterY c0
  if c.asleep then c
  else
    let gravity := if c.underwater then GRAVITY_WATER else GRAVITY_AIR
    let friction := if c.underwater then FRICTION_WATER else FRICTION_AIR
    let c :=
      if c.underwater then
        { c with vx := (c.vx + underwater_wobble_ax simT c * subDt) * (1 - WOBBLE_DAMP * subDt) }
      else c
    let vy1 := c.vy + gravity * subDt
    let c := { c with x := c.x + c.vx * subDt, y := c.y + vy1 * subDt,
                      vx := c.vx * friction,
                      vy := vy1 * (if c.underwater then 0.990 else 0.999) }
    col.collide_cookie c

/-- The (possibly perturbed) center delta of App._resolve_circle_collision
(lines 819-828): when the centers nearly coincide the delta is replaced by
a length-0.01 vector at the angle θ drawn by random.random()*tau. -/
def resolve_delta (θ : ℝ) (a b : CookieBody) : ℝ × ℝ :=
  let dx0 := b.x - a.x
  let dy0 := b.y - a.y
  if dx0 * dx0 + dy0 * dy0 ≤ 1e-9 then (Real.cos θ * 0.01, Real.sin θ * 0.01)
  else (dx0, dy0)

/-- The positional separation stage of _resolve_circle_collision (lines
838-849): a sleeping body anchors an awake partner, which takes the full
correction; otherwise the correction is split evenly. -/
def resolve_positional (nx ny overlap : ℝ) (a b : CookieBody) : CookieBody × CookieBody :=
  if a.asleep ∧ ¬ b.asleep then
    (a, { b with x := b.x + nx * overlap, y := b.y + ny * overlap })
  else if b.asleep ∧ ¬ a.asleep then
    ({ a with x := a.x - nx * overlap, y := a.y - ny * overlap }, b)
  else
    let push := overlap * 0.5
    ({ a with x := a.x - nx * push, y := a.y - ny * push },
     { b with x := b.x + nx * push, y := b.y + ny * push })

/-- The disturbance wake stage (lines 851-855). -/
def resolve_wake (overlap : ℝ) (a b : CookieBody) : CookieBody × CookieBody :=
  if overlap > 0.6 then
    ({ a with asleep := false, sleepCounter := 0 },
     { b with asleep := false, sleepCounter := 0 })
  else (a, b)

/-- The relative velocity along the contact normal (line 859). -/
def pair_vel_n (nx ny : ℝ) (a b : CookieBody) : ℝ :=
  (b.vx - a.vx) * nx + (b.vy - a.vy) * ny

/-- The impulse magnitude j (line 863). -/
def impulse_j (nx ny : ℝ) (a b : CookieBody) : ℝ :=
  -(1 + COOKIE_RESTITUTION) * pair_vel_n nx ny a b / 2

/-- The restitution impulse stage (lines 857-872): no impulse on a
separating pair, equal-and-opposite impulse otherwise, applied only to
bodies that are not asleep at this point. -/
def resolve_impulse (nx ny : ℝ) (a b : CookieBody) : CookieBody × CookieBody :=
  if pair_vel_n nx ny a b > 0 then (a, b)
  else
    (if ¬ a.asleep then
      { a with vx := a.vx - impulse_j nx ny a b * nx, vy := a.vy - impulse_j nx ny a b * ny }
     else a,
     if ¬ b.asleep then
      { b with vx := b.vx + impulse_j nx ny a b * nx, vy := b.vy + impulse_j nx ny a b * ny }
     else b)

/-- The squared length of the (possibly perturbed) delta, the dist2 the
resolution works with after line 828. -/
def resolve_dist2 (θ : ℝ) (a b : CookieBody) : ℝ :=
  (resolve_delta θ a b).1 * (resolve_delta θ a b).1 +
    (resolve_delta θ a b).2 * (resolve_delta θ a b).2

/-- The contact distance, math.sqrt(dist2) at line 833. -/
def resolve_dist (θ : ℝ) (a b : CookieBody) : ℝ := Real.sqrt (resolve_dist2 θ a b)

/-- App._resolve_circle_collision on a pair (a, b); θ is the random
perturbation angle used only in the degenerate branch.  Returns the
updated pair. -/
def resolve_circle_collision (θ : ℝ) (a b : CookieBody) : CookieBody × CookieBody :=
  let dist2 := resolve_dist2 θ a b
  let min_dist := a.r + b.r
  if dist2 ≥ min_dist * min_dist then (a, b)
  else
    let dist := resolve_dist θ a b
    let nx := (resolve_delta θ a b).1 / dist
    let ny := (resolve_delta θ a b).2 / dist
    let overlap := min_dist - dist
    let p := resolve_positional nx ny overlap a b
    let w := resolve_wake overlap p.1 p.2
    resolve_impulse nx ny w.1 w.2

/-- Resolve one index pair inside the cookie list, writing both updated
bodies back (the Python loop mutates list elements in place). -/
def doPair (θf : ℕ → ℕ → ℝ) (cs : List CookieBody) (ij : ℕ × ℕ) : List CookieBody :=
  match cs.get? ij.1, cs.get? ij.2 with
  | some a, some b =>
    let ab := resolve_circle_collision (θf ij.1 ij.2) a b
    (cs.set ij.1 ab.1).set ij.2 ab.2
  | _, _ => cs

/-- The unordered index pairs i < j visited by the nested loops at source
lines 796-801, in visit order. -/
def pairIndices (n : ℕ) : List (ℕ × ℕ) :=
  (List.range n).flatMap fun i => ((List.range n).drop (i + 1)).map fun j => (i, j)

/-- One collision-resolution pass over all pairs. -/
def collision_pass (θf : ℕ → ℕ → ℝ) (cs : List CookieBody) : List CookieBody :=
  (pairIndices cs.length).foldl (doPair θf) cs

/-- One substep of App._step: per-body integration and boundary collision,
then COLLISION_PASSES passes of pairwise resolution. -/
def substep (col : EllipseBowlCollider) (waterY subDt simT : ℝ)
    (θs : ℕ → ℕ → ℕ → ℝ) (cs : List CookieBody) : List CookieBody :=
  (List.range COLLISION_PASSES).foldl (fun l p => collision_pass (θs p) l)
    (cs.map (integrate_body col waterY subDt simT))

/-- The sleep/wake update at the end of App._step (lines 803-814). -/
def sleep_update (rimY : ℝ) (c : CookieBody) : CookieBody :=
  if c.asleep then c
  else
    let speed := Real.sqrt (c.vx * c.vx + c.vy * c.vy)
    if speed < SLEEP_SPEED ∧ c.y > rimY + c.r then
      if c.sleepCounter + 1 ≥ SLEEP_FRAMES then
        { c with sleepCounter := c.sleepCounter + 1, asleep := true, vx := 0, vy := 0 }
      else { c with sleepCounter := c.sleepCounter + 1 }
    else { c with sleepCounter := 0 }

/-- App._step(dt): SUBSTEPS substeps of size dt/SUBSTEPS followed by the
sleep/wake update (the fill-meter refresh touches only UI state).  θs
supplies the degenerate-contact angle per substep, pass and pair. -/
def step (col : EllipseBowlCollider) (waterY simT dt : ℝ)
    (θs : ℕ → ℕ → ℕ → ℕ → ℝ) (cs : List CookieBody) : List CookieBody :=
  let subDt := dt / (SUBSTEPS : ℝ)
  ((List.range SUBSTEPS).foldl (fun l k => substep col waterY subDt simT (θs k) l) cs).map
    (sleep_update col.rim_y)

/-- App.shake on one body: wake it and add the randomized impulse (jx, jy),
jx drawn from [-760, 760] and jy from [-560, 220]. -/
def shake_body (jx jy : ℝ) (c : CookieBody) : CookieBody :=
  { c with asleep := false, sleepCounter := 0, vx := c.vx + jx, vy := c.vy + jy }

/-! ### App spawn/capacity state -/

/-- The random draws of App.spawn_cookie (lines 635-639, 661-662). -/
structure SpawnParams where
  r : ℝ
  x : ℝ
  y : ℝ
  vx : ℝ
  vy : ℝ
  wobblePhase : ℝ
  wobbleFreq : ℝ

/-- The simulation-relevant mutable state of App: the cookie list, the
per-color counters, the collider's sampled area, the autodrop accumulator
and the pending defender colors. -/
structure AppState where
  cookies : List CookieBody
  counts : String → ℕ
  bowl_area : ℝ
  auto_accum : ℝ
  pending_colors : List String

/-- App._fill_ratio: total circle area over the (1-floored) bowl area. -/
def fill_ratio (st : AppState) : ℝ :=
  (st.cookies.foldl (fun s c => s + Real.pi * c.r * c.r) 0) / max 1 st.bowl_area

/-- The CookieBody built by App.spawn_cookie from the given color and
random draws. -/
def mk_cookie (color : String) (p : SpawnParams) : CookieBody :=
  { colorName := color, r := p.r, x := p.x, y := p.y, vx := p.vx, vy := p.vy,
    asleep := false, sleepCounter := 0, underwater := false,
    wobblePhase := p.wobblePhase, wobbleFreq := p.wobbleFreq }

/-- App.spawn_cookie: reject at the hard stop, or at the max count while
at the overflow threshold; otherwise append one body and bump that
color's counter (status-label text omitted). -/
def spawn_cookie (st : AppState) (color : String) (p : SpawnParams) : AppState :=
  let ratio := fill_ratio st
  if ratio ≥ HARD_STOP_AT then st
  else if MAX_COOKIES ≤ st.cookies.length ∧ ratio ≥ OVERFLOW_AT then st
  else
    { st with cookies := st.cookies ++ [mk_cookie color p],
              counts := fun k => if k = color then st.counts color + 1 else st.counts k }

/-- App.clear: empty the bowl, reset counters, accumulator and the pending
defender queue. -/
def clear (st : AppState) : AppState :=
  { st with cookies := [], counts := fun _ => 0, auto_accum := 0, pending_colors := [] }

/-- A sequence of spawn calls (color and random draws per call). -/
def applySpawns (st : AppState) (reqs : List (String × SpawnParams)) : AppState :=
  reqs.foldl (fun s q => spawn_cookie s q.1 q.2) st

/-! ### Autodrop (App._auto_drop_step) -/

/-- Python int(): truncation toward zero. -/
def truncInt (x : ℝ) : ℤ := if 0 ≤ x then ⌊x⌋ else -⌊-x⌋

/-- App._auto_drop_step: returns the new accumulator and the number of
spawn_cookie calls made this frame.  Disabled ⇒ the accumulator resets;
the spawn count is the truncated accumulator capped at 10, and the cap is
applied only after the accumulator has been decremented. -/
def auto_drop_step (enabled : Bool) (rate dt accum : ℝ) : ℝ × ℕ :=
  if ¬ enabled then (0, 0)
  else
    let rate := max 0 rate
    if rate ≤ 0 then (accum, 0)
    else
      let acc := accum + dt * rate
      let t := truncInt acc
      if t ≤ 0 then (acc, 0)
      else (acc - t, min t.toNat 10)

/-- Run the autodrop over a list of frame time-deltas, accumulating the
total number of spawn calls. -/
def auto_drop_run (rate : ℝ) (dts : List ℝ) (accum : ℝ) : ℝ × ℕ :=
  dts.foldl (fun s dt =>
    let r := auto_drop_step true rate dt s.1
    (r.1, s.2 + r.2)) (accum, 0)

/-! ### Defender drain (App._defender_drop_step) -/

/-- The while loop of _defender_drop_step: pop the queue head, then
attempt the spawn, up to the given fuel (MAX_DROPS_PER_TICK minus the
drops already made).  ps supplies the spawn's random draws per drop. -/
def drain_loop (ps : ℕ → SpawnParams) : ℕ → AppState → AppState
  | 0, st => st
  | Nat.succ k, st =>
    match st.pending_colors with
    | [] => st
    | color :: rest =>
      drain_loop ps k (spawn_cookie { st with pending_colors := rest } color (ps k))

/-- App._defender_drop_step: when the auto-drop checkbox is on, drain at
most MAX_DROPS_PER_TICK pending colors through spawn_cookie. -/
def defender_drop_step (autoDrop : Bool) (ps : ℕ → SpawnParams) (st : AppState) : AppState :=
  if autoDrop then drain_loop ps MAX_DROPS_PER_TICK st else st

end

/-! ## Theorems -/

/-- The sleep invariant on one body: asleep implies zero velocity. -/
def SleepInv (c : CookieBody) : Prop := c.asleep = true → c.vx = 0 ∧ c.vy = 0

/-- The sleep invariant on a whole cookie list. -/
def AllSleepInv (cs : List CookieBody) : Prop := ∀ c ∈ cs, SleepInv c

theorem collide_cookie_asleep (col : EllipseBowlCollider) (c : CookieBody) :
    (col.collide_cookie c).asleep = c.asleep := by
  simp only [EllipseBowlCollider.collide_cookie]
  split_ifs <;> rfl

theorem sleepInv_apply_underwater_mode (waterY : ℝ) (c : CookieBody) (h : SleepInv c) :
    SleepInv (apply_underwater_mode waterY c) := by
  unfold apply_underwater_mode
  split_ifs with h1 h2 h3 <;> intro ha <;> obtain ⟨hx, hy⟩ := h ha <;>
    refine ⟨?_, ?_⟩ <;> simp [hx, hy]

theorem sleepInv_collide_cookie (col : EllipseBowlCollider) (c : CookieBody)
    (h : SleepInv c) : SleepInv (col.collide_cookie c) := by
  simp only [EllipseBowlCollider.collide_cookie]
  split_ifs with h1 h2 h3 h4 h5 <;> intro ha <;> obtain ⟨hx, hy⟩ := h ha <;>
    refine ⟨?_, ?_⟩ <;> simp [hx, hy]

theorem sleepInv_integrate_body (col : EllipseBowlCollider) (waterY subDt simT : ℝ)
    (c0 : CookieBody) (h : SleepInv c0) :
    SleepInv (integrate_body col waterY subDt simT c0) := by
  simp only [integrate_body]
  have hu := sleepInv_apply_underwater_mode waterY c0 h
  set c := apply_underwater_mode waterY c0 with hc
  split_ifs with h1 h2
  · exact hu
  · intro ha
    rw [collide_cookie_asleep] at ha
    simp_all
  · intro ha
    rw [collide_cookie_asleep] at ha
    simp_all

theorem sleepInv_resolve_positional (nx ny overlap : ℝ) (a b : CookieBody)
    (ha : SleepInv a) (hb : SleepInv b) :
    SleepInv (resolve_positional nx ny overlap a b).1 ∧
      SleepInv (resolve_positional nx ny overlap a b).2 := by
  unfold resolve_positional
  split_ifs <;> exact ⟨fun h => ha h, fun h => hb h⟩

theorem sleepInv_resolve_wake (overlap : ℝ) (a b : CookieBody)
    (ha : SleepInv a) (hb : SleepInv b) :
    SleepInv (resolve_wake overlap a b).1 ∧ SleepInv (resolve_wake overlap a b).2 := by
  unfold resolve_wake
  split_ifs
  · exact ⟨fun h => by simp at h, fun h => by simp at h⟩
  · exact ⟨ha, hb⟩

theorem sleepInv_resolve_impulse (nx ny : ℝ) (a b : CookieBody)
    (ha : SleepInv a) (hb : SleepInv b) :
    SleepInv (resolve_impulse nx ny a b).1 ∧ SleepInv (resolve_impulse nx ny a b).2 := by
  unfold resolve_impulse
  by_cases hv : pair_vel_n nx ny a b > 0
  · simp only [if_pos hv]
    exact ⟨ha, hb⟩
  · simp only [if_neg hv]
    refine ⟨?_, ?_⟩
    · by_cases hA : a.asleep = true
      · rw [if_neg (by simp [hA])]
        exact ha
      · rw [if_pos (by simp [hA])]
        intro h
        exact absurd h hA
    · by_cases hB : b.asleep = true
      · rw [if_neg (by simp [hB])]
        exact hb
      · rw [if_pos (by simp [hB])]
        intro h
        exact absurd h hB

theorem sleepInv_sleep_update (rimY : ℝ) (c : CookieBody) (h : SleepInv c) :
    SleepInv (sleep_update rimY c) := by
  simp only [sleep_update]
  split_ifs <;> intro ha <;> first | exact h ha | exact ⟨rfl, rfl⟩

theorem sleepInv_shake_body (jx jy : ℝ) (c : CookieBody) : SleepInv (shake_body jx jy c) := by
  intro h
  simp [shake_body] at h

theorem sleepInv_mk_cookie (color : String) (p : SpawnParams) : SleepInv (mk_cookie color p) := by
  intro h
  simp [mk_cookie] at h

theorem foldl_preserves {α : Type _} {β : Type _} (P : α → Prop) (f : α → β → α) :
    ∀ (l : List β) (init : α), P init → (∀ acc x, P acc → P (f acc x)) → P (l.foldl f init)
  | [], _, h, _ => h
  | x :: xs, init, h, hs => foldl_preserves P f xs (f init x) (hs init x h) hs

theorem sleepInv_resolve (θ : ℝ) (a b : CookieBody) (ha : SleepInv a) (hb : SleepInv b) :
    SleepInv (resolve_circle_collision θ a b).1 ∧
      SleepInv (resolve_circle_collision θ a b).2 := by
  simp only [resolve_circle_collision]
  split_ifs
  · exact ⟨ha, hb⟩
  · obtain ⟨hp1, hp2⟩ := sleepInv_resolve_positional _ _ _ a b ha hb
    obtain ⟨hw1, hw2⟩ := sleepInv_resolve_wake _ _ _ hp1 hp2
    exact sleepInv_resolve_impulse _ _ _ _ hw1 hw2

theorem allSleepInv_doPair (θf : ℕ → ℕ → ℝ) (cs : List CookieBody) (ij : ℕ × ℕ)
    (h : AllSleepInv cs) : AllSleepInv (doPair θf cs ij) := by
  unfold doPair
  cases hg1 : cs.get? ij.1 with
  | none => simpa using h
  | some a =>
    cases hg2 : cs.get? ij.2 with
    | none => simpa using h
    | some b =>
      have ha := h a (List.get?_mem hg1)
      have hb := h b (List.get?_mem hg2)
      obtain ⟨h1, h2⟩ := sleepInv_resolve (θf ij.1 ij.2) a b ha hb
      intro c hc
      rcases List.mem_or_eq_of_mem_set hc with hc' | hc'
      · rcases List.mem_or_eq_of_mem_set hc' with hc'' | hc''
        · exact h c hc''
        · exact hc'' ▸ h1
      · exact hc' ▸ h2

theorem allSleepInv_collision_pass (θf : ℕ → ℕ → ℝ) (cs : List CookieBody)
    (h : AllSleepInv cs) : AllSleepInv (collision_pass θf cs) :=
  foldl_preserves AllSleepInv (doPair θf) (pairIndices cs.length) cs h
    (fun acc ij hacc => allSleepInv_doPair θf acc ij hacc)

theorem allSleepInv_substep (col : EllipseBowlCollider) (waterY subDt simT : ℝ)
    (θs : ℕ → ℕ → ℕ → ℝ) (cs : List CookieBody) (h : AllSleepInv cs) :
    AllSleepInv (substep col waterY subDt simT θs cs) := by
  unfold substep
  refine foldl_preserves AllSleepInv _ _ _ ?_ ?_
  · intro c hc
    obtain ⟨c0, hc0, rfl⟩ := List.mem_map.mp hc
    exact sleepInv_integrate_body col waterY subDt simT c0 (h c0 hc0)
  · intro acc p hacc
    exact allSleepInv_collision_pass (θs p) acc hacc

theorem allSleepInv_step (col : EllipseBowlCollider) (waterY simT dt : ℝ)
    (θs : ℕ → ℕ → ℕ → ℕ → ℝ) (cs : List CookieBody) (h : AllSleepInv cs) :
    AllSleepInv (step col waterY simT dt θs cs) := by
  unfold step
  intro c hc
  obtain ⟨c0, hc0, rfl⟩ := List.mem_map.mp hc
  refine sleepInv_sleep_update col.rim_y c0 ?_
  revert hc0
  refine foldl_preserves
    (fun l => ∀ x ∈ l, SleepInv x) _ (List.range SUBSTEPS) cs h ?_ c0
  intro acc k hacc
  exact allSleepInv_substep col waterY (dt / (SUBSTEPS : ℝ)) simT (θs k) acc hacc

theorem allSleepInv_spawn_cookie (st : AppState) (color : String) (p : SpawnParams)
    (h : AllSleepInv st.cookies) : AllSleepInv (spawn_cookie st color p).cookies := by
  simp only [spawn_cookie]
  split_ifs
  · exact h
  · exact h
  · intro c hc
    rcases List.mem_append.mp hc with hc' | hc'
    · exact h c hc'
    · rcases List.mem_singleton.mp hc' with rfl
      exact sleepInv_mk_cookie color p

/-! Concrete sample inputs used by witness theorems. -/

noncomputable section

/-- A sleeping body at rest, used as a witness input. -/
def sampleSleeping : CookieBody :=
  { colorName := "green", r := 12, x := 400, y := 300, vx := 0, vy := 0,
    asleep := true, sleepCounter := 20, underwater := true, wobblePhase := 0, wobbleFreq := 1 }

/-- Sample spawn draws, inside the ranges drawn at source lines 635-639. -/
def sampleParams : SpawnParams :=
  { r := 14, x := 400, y := 100, vx := 10, vy := 50, wobblePhase := 0, wobbleFreq := 1 }

/-- An empty app state with unit bowl area. -/
def sampleEmptyState : AppState :=
  { cookies := [], counts := fun _ => 0, bowl_area := 1, auto_accum := 0, pending_colors := [] }

end

theorem sampleSleeping_inv : SleepInv sampleSleeping := fun _ => ⟨rfl, rfl⟩

/-- C1: every modelled operation of the program — the underwater regime
transition, the per-body integration-and-boundary substep, the boundary
collision itself, pairwise contact resolution, the sleep/wake update,
shake, cookie creation, clear, spawn, and a whole step(dt) — preserves
the invariant that an asleep body has velocity (0, 0). -/
theorem C1_sleep_invariant :
    (∀ waterY c, SleepInv c → SleepInv (apply_underwater_mode waterY c)) ∧
    (∀ col waterY subDt simT c, SleepInv c →
      SleepInv (integrate_body col waterY subDt simT c)) ∧
    (∀ (col : EllipseBowlCollider) c, SleepInv c → SleepInv (col.collide_cookie c)) ∧
    (∀ θ a b, SleepInv a → SleepInv b →
      SleepInv (resolve_circle_collision θ a b).1 ∧
        SleepInv (resolve_circle_collision θ a b).2) ∧
    (∀ rimY c, SleepInv c → SleepInv (sleep_update rimY c)) ∧
    (∀ jx jy c, SleepInv (shake_body jx jy c)) ∧
    (∀ color p, SleepInv (mk_cookie color p)) ∧
    (∀ st, AllSleepInv (clear st).cookies) ∧
    (∀ st color p, AllSleepInv st.cookies → AllSleepInv (spawn_cookie st color p).cookies) ∧
    (∀ col waterY simT dt θs cs, AllSleepInv cs →
      AllSleepInv (step col waterY simT dt θs cs)) := by
  refine ⟨sleepInv_apply_underwater_mode, ?_, sleepInv_collide_cookie, sleepInv_resolve,
    sleepInv_sleep_update, sleepInv_shake_body, sleepInv_mk_cookie, ?_,
    allSleepInv_spawn_cookie, allSleepInv_step⟩
  · intro col waterY subDt simT c h
    exact sleepInv_integrate_body col waterY subDt simT c h
  · intro st c hc
    simp [clear] at hc

/-- Witness for C1 at concrete inputs: each operation applied to a
sleeping body at rest (or a concrete state) keeps the invariant. -/
theorem C1_sleep_invariant_witness :
    SleepInv (apply_underwater_mode water_y sampleSleeping) ∧
    SleepInv (integrate_body (appCollider 1) water_y 0 0 sampleSleeping) ∧
    SleepInv ((appCollider 1).collide_cookie sampleSleeping) ∧
    SleepInv (resolve_circle_collision 0 sampleSleeping sampleSleeping).1 ∧
    SleepInv (sleep_update app_rim_y sampleSleeping) ∧
    SleepInv (shake_body 3 4 sampleSleeping) ∧
    SleepInv (mk_cookie "red" sampleParams) ∧
    AllSleepInv (spawn_cookie sampleEmptyState "red" sampleParams).cookies ∧
    AllSleepInv (step (appCollider 1) water_y 0 0 (fun _ _ _ _ => 0) [sampleSleeping]) := by
  have hS := sampleSleeping_inv
  have hE : AllSleepInv sampleEmptyState.cookies := by
    intro c hc
    simp [sampleEmptyState] at hc
  refine ⟨C1_sleep_invariant.1 water_y sampleSleeping hS,
    C1_sleep_invariant.2.1 (appCollider 1) water_y 0 0 sampleSleeping hS,
    C1_sleep_invariant.2.2.1 (appCollider 1) sampleSleeping hS,
    (C1_sleep_invariant.2.2.2.1 0 sampleSleeping sampleSleeping hS hS).1,
    C1_sleep_invariant.2.2.2.2.1 app_rim_y sampleSleeping hS,
    C1_sleep_invariant.2.2.2.2.2.1 3 4 sampleSleeping,
    C1_sleep_invariant.2.2.2.2.2.2.1 "red" sampleParams,
    C1_sleep_invariant.2.2.2.2.2.2.2.2.1 sampleEmptyState "red" sampleParams hE,
    C1_sleep_invariant.2.2.2.2.2.2.2.2.2 (appCollider 1) water_y 0 0 (fun _ _ _ _ => 0)
      [sampleSleeping] ?_⟩
  intro c hc
  rcases List.mem_singleton.mp hc with rfl
  exact hS

/-! ### Spawn / capacity helpers (shared by the spawn-related claims) -/

/-- The rejection condition of App.spawn_cookie (source lines 627-633). -/
def spawn_rejects (st : AppState) : Prop :=
  fill_ratio st ≥ HARD_STOP_AT ∨
    (MAX_COOKIES ≤ st.cookies.length ∧ fill_ratio st ≥ OVERFLOW_AT)

theorem spawn_cookie_of_rejects (st : AppState) (color : String) (p : SpawnParams)
    (h : spawn_rejects st) : spawn_cookie st color p = st := by
  simp only [spawn_cookie]
  rcases h with h | h
  · rw [if_pos h]
  · split_ifs <;> rfl

theorem spawn_cookie_of_accepts (st : AppState) (color : String) (p : SpawnParams)
    (h : ¬ spawn_rejects st) :
    spawn_cookie st color p =
      { st with cookies := st.cookies ++ [mk_cookie color p],
                counts := fun k => if k = color then st.counts color + 1 else st.counts k } := by
  simp only [spawn_cookie]
  rw [if_neg (fun hh => h (Or.inl hh)), if_neg (fun hh => h (Or.inr hh))]

theorem fill_ratio_spawn_accept (st : AppState) (color : String) (p : SpawnParams)
    (h : ¬ spawn_rejects st) :
    fill_ratio (spawn_cookie st color p) =
      fill_ratio st + Real.pi * p.r * p.r / max 1 st.bowl_area := by
  rw [spawn_cookie_of_accepts st color p h]
  simp only [fill_ratio, List.foldl_append, List.foldl_cons, List.foldl_nil, mk_cookie]
  rw [add_div]

theorem applySpawns_of_hard_stop (st : AppState) (h : fill_ratio st ≥ HARD_STOP_AT) :
    ∀ reqs, applySpawns st reqs = st := by
  intro reqs
  induction reqs with
  | nil => rfl
  | cons q qs ih =>
    show applySpawns (spawn_cookie st q.1 q.2) qs = st
    rw [spawn_cookie_of_rejects st q.1 q.2 (Or.inl h)]
    exact ih

/-- C2: spawn_cookie creates no body and leaves the collection and the
per-color counters unchanged exactly when the hard-stop ratio is reached
or the body count is at MAX_COOKIES while at the overflow ratio; in every
other case it appends exactly one new body and bumps that color's counter
by one; and once the hard-stop ratio is reached, any sequence of further
spawn calls leaves the state unchanged. -/
theorem C2_spawn_rejection :
    (∀ st color p, spawn_rejects st → spawn_cookie st color p = st) ∧
    (∀ st color p, ¬ spawn_rejects st →
      (spawn_cookie st color p).cookies = st.cookies ++ [mk_cookie color p] ∧
      (spawn_cookie st color p).cookies.length = st.cookies.length + 1 ∧
      (spawn_cookie st color p).counts color = st.counts color + 1 ∧
      ∀ k, k ≠ color → (spawn_cookie st color p).counts k = st.counts k) ∧
    (∀ st reqs, fill_ratio st ≥ HARD_STOP_AT →
      applySpawns st reqs = st ∧ (applySpawns st reqs).cookies.length = st.cookies.length) := by
  refine ⟨spawn_cookie_of_rejects, ?_, ?_⟩
  · intro st color p h
    rw [spawn_cookie_of_accepts st color p h]
    refine ⟨rfl, by simp, by simp, ?_⟩
    intro k hk
    simp [hk]
  · intro st reqs h
    rw [applySpawns_of_hard_stop st h reqs]
    exact ⟨rfl, rfl⟩

/-! Witness inputs for the spawn claims. -/

noncomputable section

/-- A one-cookie state with unit bowl area, already past the hard stop. -/
def sampleFullState : AppState :=
  { cookies := [mk_cookie "red" sampleParams], counts := fun _ => 0, bowl_area := 1,
    auto_accum := 0, pending_colors := ["blue"] }

end

theorem sampleFullState_ratio : fill_ratio sampleFullState ≥ HARD_STOP_AT := by
  have hpi := Real.pi_gt_three
  simp only [fill_ratio, sampleFullState, mk_cookie, sampleParams, List.foldl_cons,
    List.foldl_nil, HARD_STOP_AT]
  rw [max_self]
  nlinarith

theorem sampleEmptyState_accepts : ¬ spawn_rejects sampleEmptyState := by
  intro h
  rcases h with h | h
  · simp only [fill_ratio, sampleEmptyState, List.foldl_nil, HARD_STOP_AT] at h
    rw [max_self] at h
    norm_num at h
  · simp [sampleEmptyState, MAX_COOKIES] at h

/-- Witness for C2: a concrete over-full state rejects a further spawn
sequence unchanged, and a concrete empty state accepts a spawn, appending
one body and bumping the color counter. -/
theorem C2_spawn_rejection_witness :
    (spawn_rejects sampleFullState ∧
      applySpawns sampleFullState [("red", sampleParams), ("blue", sampleParams)] =
        sampleFullState) ∧
    (¬ spawn_rejects sampleEmptyState ∧
      (spawn_cookie sampleEmptyState "red" sampleParams).cookies =
        sampleEmptyState.cookies ++ [mk_cookie "red" sampleParams] ∧
      (spawn_cookie sampleEmptyState "red" sampleParams).counts "red" =
        sampleEmptyState.counts "red" + 1) := by
  have hfull := sampleFullState_ratio
  have hacc := sampleEmptyState_accepts
  obtain ⟨h2a, h2b, h2c, _⟩ := C2_spawn_rejection.2.1 sampleEmptyState "red" sampleParams hacc
  exact ⟨⟨Or.inl hfull,
      (C2_spawn_rejection.2.2 sampleFullState [("red", sampleParams), ("blue", sampleParams)]
        hfull).1⟩,
    ⟨hacc, h2a, h2c⟩⟩

/-- C6: the fill ratio is unchanged by a rejected spawn, strictly
increased by an accepted spawn of a body with positive radius, and
non-decreasing across any sequence of spawn calls (no clear in between,
the bowl-area denominator is fixed in the state). -/
theorem C6_monotone_fill :
    (∀ st color p, spawn_rejects st → fill_ratio (spawn_cookie st color p) = fill_ratio st) ∧
    (∀ st color p, ¬ spawn_rejects st → 0 < p.r →
      fill_ratio st < fill_ratio (spawn_cookie st color p)) ∧
    (∀ st reqs, (∀ q ∈ reqs, 0 < (q : String × SpawnParams).2.r) →
      fill_ratio st ≤ fill_ratio (applySpawns st reqs)) := by
  have hstep : ∀ st (color : String) (p : SpawnParams), 0 < p.r →
      fill_ratio st ≤ fill_ratio (spawn_cookie st color p) := by
    intro st color p hr
    by_cases h : spawn_rejects st
    · rw [spawn_cookie_of_rejects st color p h]
    · rw [fill_ratio_spawn_accept st color p h]
      have hD : (0 : ℝ) < max 1 st.bowl_area := lt_of_lt_of_le zero_lt_one (le_max_left _ _)
      have hpos : 0 < Real.pi * p.r * p.r / max 1 st.bowl_area := by
        apply div_pos _ hD
        positivity
      linarith
  refine ⟨?_, ?_, ?_⟩
  · intro st color p h
    rw [spawn_cookie_of_rejects st color p h]
  · intro st color p h hr
    rw [fill_ratio_spawn_accept st color p h]
    have hD : (0 : ℝ) < max 1 st.bowl_area := lt_of_lt_of_le zero_lt_one (le_max_left _ _)
    have hpos : 0 < Real.pi * p.r * p.r / max 1 st.bowl_area := by
      apply div_pos _ hD
      positivity
    linarith
  · intro st reqs
    induction reqs generalizing st with
    | nil => intro _; exact le_refl _
    | cons q qs ih =>
      intro hall
      have h1 := hstep st q.1 q.2 (hall q (List.mem_cons_self q qs))
      have h2 := ih (spawn_cookie st q.1 q.2) (fun x hx => hall x (List.mem_cons_of_mem q hx))
      exact le_trans h1 h2

/-- Witness for C6: with the concrete empty and over-full states, the
rejected spawn keeps the ratio, the accepted spawn strictly raises it,
and a two-call sequence never lowers it. -/
theorem C6_monotone_fill_witness :
    fill_ratio (spawn_cookie sampleFullState "red" sampleParams) = fill_ratio sampleFullState ∧
    fill_ratio sampleEmptyState < fill_ratio (spawn_cookie sampleEmptyState "red" sampleParams) ∧
    fill_ratio sampleEmptyState ≤
      fill_ratio (applySpawns sampleEmptyState [("red", sampleParams), ("blue", sampleParams)]) := by
  refine ⟨C6_monotone_fill.1 sampleFullState "red" sampleParams (Or.inl sampleFullState_ratio),
    C6_monotone_fill.2.1 sampleEmptyState "red" sampleParams sampleEmptyState_accepts (by
      simp [sampleParams]),
    C6_monotone_fill.2.2 sampleEmptyState [("red", sampleParams), ("blue", sampleParams)] ?_⟩
  intro q hq
  rcases List.mem_cons.mp hq with rfl | hq
  · simp [sampleParams]
  · rcases List.mem_singleton.mp hq with rfl
    simp [sampleParams]

/-! ### Defender feed dedup (C4) -/

/-- The color a detection maps to. -/
def threatColor (t : ThreatRecord) : String :=
  defender_severity_to_cookie_color t.severityID t.severity

/-- The threats of a poll whose rid is not in the previously stored id
set. -/
def new_threats (lastIds : List String) (threats : List ThreatRecord) : List ThreatRecord :=
  threats.filter (fun t => decide (threat_rid t ∉ lastIds))

theorem defender_sync_once_aux (lastIds : List String) (threats : List ThreatRecord) :
    ∀ acc : List String × List String,
      (threats.foldl
        (fun acc t =>
          let rid := threat_rid t
          let cur := if rid ∈ acc.2 then acc.2 else acc.2 ++ [rid]
          let colors :=
            if rid ∈ lastIds then acc.1
            else acc.1 ++ [defender_severity_to_cookie_color t.severityID t.severity]
          (colors, cur)) acc).1 = acc.1 ++ (new_threats lastIds threats).map threatColor ∧
      (∀ r, r ∈ (threats.foldl
        (fun acc t =>
          let rid := threat_rid t
          let cur := if rid ∈ acc.2 then acc.2 else acc.2 ++ [rid]
          let colors :=
            if rid ∈ lastIds then acc.1
            else acc.1 ++ [defender_severity_to_cookie_color t.severityID t.severity]
          (colors, cur)) acc).2 ↔ r ∈ acc.2 ∨ r ∈ threats.map threat_rid) := by
  induction threats with
  | nil =>
    intro acc
    refine ⟨by simp [new_threats], ?_⟩
    intro r
    simp
  | cons t ts ih =>
    intro acc
    obtain ⟨ih1, ih2⟩ := ih
      (let rid := threat_rid t
       let cur := if rid ∈ acc.2 then acc.2 else acc.2 ++ [rid]
       let colors :=
         if rid ∈ lastIds then acc.1
         else acc.1 ++ [defender_severity_to_cookie_color t.severityID t.severity]
       (colors, cur))
    constructor
    · rw [List.foldl_cons, ih1]
      by_cases hmem : threat_rid t ∈ lastIds
      · simp [new_threats, hmem, threatColor]
      · simp [new_threats, hmem, threatColor]
    · intro r
      rw [List.foldl_cons, ih2 r]
      by_cases hcur : threat_rid t ∈ acc.2
      · simp only [if_pos hcur, List.map_cons, List.mem_cons]
        constructor
        · rintro (h | h)
          · exact Or.inl h
          · exact Or.inr (Or.inr h)
        · rintro (h | rfl | h)
          · exact Or.inl h
          · exact Or.inl hcur
          · exact Or.inr h
      · simp only [if_neg hcur, List.mem_append, List.mem_singleton, List.map_cons,
          List.mem_cons]
        tauto

/-- The characterization of one _defender_sync_once poll: the enqueued
colors are exactly the severity colors of the threats whose rid was not
in the previous id set (in order), and the new stored id set holds
exactly the rids of this poll's snapshot. -/
theorem defender_sync_once_spec (lastIds : List String) (threats : List ThreatRecord) :
    (defender_sync_once lastIds threats).1 = (new_threats lastIds threats).map threatColor ∧
    (∀ r, r ∈ (defender_sync_once lastIds threats).2 ↔ r ∈ threats.map threat_rid) := by
  obtain ⟨h1, h2⟩ := defender_sync_once_aux lastIds threats ([], [])
  refine ⟨by simpa using h1, ?_⟩
  intro r
  rw [defender_sync_once, h2 r]
  simp

/-- A concrete detection record used for the C4 polls. -/
def threatA : ThreatRecord :=
  { threatName := "Trojan:Win32/Agent", detectionTime := "2026-01-01T10:00:00",
    severityID := some 5, severity := some "Severe", resources := "file:C:/x.exe" }

/-- Counterexample to C4 as stated: the id set is replaced by each poll's
snapshot, so a detection id seen in poll 1 ([threatA]), absent from poll 2
([]), enqueues a second spawn request when it reappears in poll 3
([threatA]): the first poll enqueues one request and the third poll
enqueues one more for the same identifier. -/
theorem C4_counterexample :
    (defender_sync_once [] [threatA]).1.length = 1 ∧
    (defender_sync_once (defender_sync_once (defender_sync_once [] [threatA]).2 []).2
        [threatA]).1.length = 1 := by
  constructor <;> rfl

/-- C4 amended: per poll, one spawn request is enqueued for exactly the
occurrences whose id is missing from the previously stored id set; the
stored id set is then replaced by the current snapshot's ids; hence an
identifier present in the immediately preceding poll's snapshot never
re-fires, but one absent from an intervening snapshot fires again on
reappearance. -/
theorem C4_delta_dedup :
    (∀ lastIds threats,
      (defender_sync_once lastIds threats).1 = (new_threats lastIds threats).map threatColor) ∧
    (∀ lastIds threats r,
      r ∈ (defender_sync_once lastIds threats).2 ↔ r ∈ threats.map threat_rid) ∧
    (∀ ids0 ts1 ts2, (∀ t ∈ ts2, threat_rid t ∈ ts1.map threat_rid) →
      (defender_sync_once (defender_sync_once ids0 ts1).2 ts2).1 = []) := by
  refine ⟨fun l t => (defender_sync_once_spec l t).1,
    fun l t r => (defender_sync_once_spec l t).2 r, ?_⟩
  intro ids0 ts1 ts2 hsub
  rw [(defender_sync_once_spec _ ts2).1]
  have : new_threats (defender_sync_once ids0 ts1).2 ts2 = [] := by
    rw [new_threats, List.filter_eq_nil_iff]
    intro t ht
    simp only [decide_eq_true_eq, Decidable.not_not]
    exact ((defender_sync_once_spec ids0 ts1).2 (threat_rid t)).mpr (hsub t ht)
  rw [this]
  rfl

/-- Witness for C4's amended statement: with ts1 = ts2 = [threatA], the
second poll enqueues nothing. -/
theorem C4_delta_dedup_witness :
    (∀ t ∈ [threatA], threat_rid t ∈ [threatA].map threat_rid) ∧
    (defender_sync_once (defender_sync_once [] [threatA]).2 [threatA]).1 = [] := by
  have hsub : ∀ t ∈ [threatA], threat_rid t ∈ [threatA].map threat_rid := by
    intro t ht
    rcases List.mem_singleton.mp ht with rfl
    simp
  exact ⟨hsub, C4_delta_dedup.2.2 [] [threatA] [threatA] hsub⟩

/-! ### Defender drain (C10) -/

theorem spawn_cookie_pending (st : AppState) (color : String) (p : SpawnParams) :
    (spawn_cookie st color p).pending_colors = st.pending_colors := by
  simp only [spawn_cookie]
  split_ifs <;> rfl

theorem fill_ratio_set_pending (st : AppState) (l : List String) :
    fill_ratio { st with pending_colors := l } = fill_ratio st := rfl

theorem drain_loop_pending (ps : ℕ → SpawnParams) :
    ∀ (fuel : ℕ) (st : AppState),
      (drain_loop ps fuel st).pending_colors = st.pending_colors.drop fuel := by
  intro fuel
  induction fuel with
  | zero => intro st; rfl
  | succ k ih =>
    intro st
    cases hp : st.pending_colors with
    | nil =>
      simp only [drain_loop, hp]
      simp
    | cons color rest =>
      simp only [drain_loop, hp]
      rw [ih, spawn_cookie_pending]
      simp

theorem drain_loop_hard_stop (ps : ℕ → SpawnParams) :
    ∀ (fuel : ℕ) (st : AppState), fill_ratio st ≥ HARD_STOP_AT →
      (drain_loop ps fuel st).cookies = st.cookies ∧
      (drain_loop ps fuel st).counts = st.counts := by
  intro fuel
  induction fuel with
  | zero => intro st _; exact ⟨rfl, rfl⟩
  | succ k ih =>
    intro st h
    cases hp : st.pending_colors with
    | nil =>
      simp only [drain_loop, hp]
      trivial
    | cons color rest =>
      have hrej : fill_ratio { st with pending_colors := rest } ≥ HARD_STOP_AT := h
      simp only [drain_loop, hp]
      rw [spawn_cookie_of_rejects _ color (ps k) (Or.inl hrej)]
      exact ih { st with pending_colors := rest } hrej

/-- C10: the defender drain pops each pending color before the spawn is
attempted, so the pending queue always shrinks by min(len, 6) regardless
of spawn outcomes; in particular at the hard stop the spawn rejects, no
body is created, no counter moves, and the popped requests are discarded
for good. -/
theorem C10_lossy_drain :
    (∀ ps fuel st, (drain_loop ps fuel st).pending_colors = st.pending_colors.drop fuel) ∧
    (∀ ps st, (defender_drop_step true ps st).pending_colors =
      st.pending_colors.drop MAX_DROPS_PER_TICK) ∧
    (∀ ps st, fill_ratio st ≥ HARD_STOP_AT →
      (defender_drop_step true ps st).cookies = st.cookies ∧
      (defender_drop_step true ps st).counts = st.counts ∧
      (defender_drop_step true ps st).pending_colors =
        st.pending_colors.drop MAX_DROPS_PER_TICK) := by
  have hdds : ∀ ps st, defender_drop_step true ps st = drain_loop ps MAX_DROPS_PER_TICK st := by
    intro ps st
    rfl
  refine ⟨drain_loop_pending, ?_, ?_⟩
  · intro ps st
    rw [hdds, drain_loop_pending]
  · intro ps st h
    obtain ⟨h1, h2⟩ := drain_loop_hard_stop ps MAX_DROPS_PER_TICK st h
    rw [hdds]
    exact ⟨h1, h2, drain_loop_pending ps MAX_DROPS_PER_TICK st⟩

/-! ### Autodrop rate limiting (C8) -/

theorem truncInt_of_nonneg (x : ℝ) (h : 0 ≤ x) : truncInt x = ⌊x⌋ := if_pos h

theorem auto_drop_step_frame (rate dt accum : ℝ) (hr0 : 0 < rate) (hr : rate ≤ 25)
    (hdt0 : 0 ≤ dt) (hdt : dt ≤ 1 / 30) (h0 : 0 ≤ accum) (h1 : accum < 1) :
    0 ≤ (auto_drop_step true rate dt accum).1 ∧
    (auto_drop_step true rate dt accum).1 < 1 ∧
    ((auto_drop_step true rate dt accum).2 : ℝ) =
      accum + dt * rate - (auto_drop_step true rate dt accum).1 := by
  have hmax : max 0 rate = rate := max_eq_right hr0.le
  have hstep : auto_drop_step true rate dt accum =
      (if truncInt (accum + dt * rate) ≤ 0 then (accum + dt * rate, 0)
       else (accum + dt * rate - truncInt (accum + dt * rate),
         min (truncInt (accum + dt * rate)).toNat 10)) := by
    simp only [auto_drop_step, hmax, Bool.not_true, if_neg (not_le.mpr hr0)]
    norm_num
  have hacc0 : 0 ≤ accum + dt * rate := add_nonneg h0 (mul_nonneg hdt0 hr0.le)
  have haccU : accum + dt * rate < 11 / 6 := by
    have : dt * rate ≤ (1 / 30) * 25 := mul_le_mul hdt hr hr0.le (by norm_num)
    nlinarith
  have htr : truncInt (accum + dt * rate) = ⌊accum + dt * rate⌋ :=
    truncInt_of_nonneg _ hacc0
  rw [hstep, htr]
  by_cases hle : ⌊accum + dt * rate⌋ ≤ 0
  · rw [if_pos hle]
    have hlt1 : accum + dt * rate < 1 := by
      by_contra hge
      push_neg at hge
      have : (1 : ℤ) ≤ ⌊accum + dt * rate⌋ := by
        rw [Int.le_floor]
        exact_mod_cast hge
      omega
    refine ⟨hacc0, hlt1, ?_⟩
    push_cast
    ring
  · rw [if_neg hle]
    push_neg at hle
    have hfl1 : ⌊accum + dt * rate⌋ = 1 := by
      have hub : ⌊accum + dt * rate⌋ < 2 := by
        rw [Int.floor_lt]
        push_cast
        linarith
      omega
    rw [hfl1]
    have hge1 : (1 : ℝ) ≤ accum + dt * rate := by
      have := Int.le_floor.mp (le_of_eq hfl1.symm)
      exact_mod_cast this
    norm_num
    constructor
    · linarith
    · linarith

theorem auto_drop_run_aux (rate : ℝ) (hr0 : 0 < rate) (hr : rate ≤ 25) :
    ∀ (dts : List ℝ), (∀ dt ∈ dts, 0 ≤ dt ∧ dt ≤ 1 / 30) →
    ∀ (accum : ℝ) (n : ℕ), 0 ≤ accum → accum < 1 →
      0 ≤ (dts.foldl (fun s dt =>
          let r := auto_drop_step true rate dt s.1
          (r.1, s.2 + r.2)) (accum, n)).1 ∧
      (dts.foldl (fun s dt =>
          let r := auto_drop_step true rate dt s.1
          (r.1, s.2 + r.2)) (accum, n)).1 < 1 ∧
      (((dts.foldl (fun s dt =>
          let r := auto_drop_step true rate dt s.1
          (r.1, s.2 + r.2)) (accum, n)).2 : ℝ) =
        n + accum + rate * dts.sum - (dts.foldl (fun s dt =>
          let r := auto_drop_step true rate dt s.1
          (r.1, s.2 + r.2)) (accum, n)).1) := by
  intro dts
  induction dts with
  | nil =>
    intro _ accum n h0 h1
    refine ⟨h0, h1, ?_⟩
    simp
  | cons dt dts ih =>
    intro hall accum n h0 h1
    obtain ⟨hd0, hd1⟩ := hall dt (List.mem_cons_self dt dts)
    obtain ⟨hs0, hs1, hs2⟩ := auto_drop_step_frame rate dt accum hr0 hr hd0 hd1 h0 h1
    have hall' : ∀ d ∈ dts, 0 ≤ d ∧ d ≤ 1 / 30 :=
      fun d hd => hall d (List.mem_cons_of_mem dt hd)
    obtain ⟨ih0, ih1, ih2⟩ := ih hall' (auto_drop_step true rate dt accum).1
      (n + (auto_drop_step true rate dt accum).2) hs0 hs1
    rw [List.foldl_cons]
    refine ⟨ih0, ih1, ?_⟩
    rw [ih2]
    push_cast
    rw [List.sum_cons]
    linarith

/-- C8: the per-frame autodrop spawn count is always capped at 10; and
with autodrop enabled at a fixed rate R in the range the UI scale allows
(0 < R ≤ 25) and frame deltas clamped as the main loop clamps them
(0 ≤ dt ≤ 1/30), the accumulator carries the fractional remainder so that
the total number of spawn calls over the frames equals ⌊R · T⌋ exactly
(hence within ±1), and never exceeds 10 per frame times the frame
count. -/
theorem C8_autodrop_rate :
    (∀ (enabled : Bool) rate dt accum, (auto_drop_step enabled rate dt accum).2 ≤ 10) ∧
    (∀ rate (dts : List ℝ), 0 < rate → rate ≤ 25 → (∀ dt ∈ dts, 0 ≤ dt ∧ dt ≤ 1 / 30) →
      ((auto_drop_run rate dts 0).2 : ℤ) = ⌊rate * dts.sum⌋ ∧
      (auto_drop_run rate dts 0).2 ≤ 10 * dts.length) := by
  constructor
  · intro enabled rate dt accum
    simp only [auto_drop_step]
    split_ifs <;> simp
  · intro rate dts hr0 hr hall
    obtain ⟨h0, h1, h2⟩ := auto_drop_run_aux rate hr0 hr dts hall 0 0 le_rfl zero_lt_one
    have hcap : ∀ (l : List ℝ) (acc : ℝ) (n : ℕ),
        (l.foldl (fun s dt =>
          let r := auto_drop_step true rate dt s.1
          (r.1, s.2 + r.2)) (acc, n)).2 ≤ n + 10 * l.length := by
      intro l
      induction l with
      | nil => intro acc n; simp
      | cons d ds ihl =>
        intro acc n
        rw [List.foldl_cons]
        refine le_trans (ihl _ _) ?_
        have hle : (auto_drop_step true rate d acc).2 ≤ 10 := by
          simp only [auto_drop_step]
          split_ifs <;> simp
        simp only [List.length_cons]
        omega
    have e : dts.foldl (fun s dt =>
        let r := auto_drop_step true rate dt s.1
        (r.1, s.2 + r.2)) (0, 0) = auto_drop_run rate dts 0 := rfl
    rw [e] at h0 h1 h2
    constructor
    · have h2' : ((auto_drop_run rate dts 0).2 : ℝ) =
          rate * dts.sum - (auto_drop_run rate dts 0).1 := by
        rw [h2]
        push_cast
        ring
      symm
      rw [Int.floor_eq_iff]
      refine ⟨?_, ?_⟩
      · push_cast
        rw [h2']
        linarith
      · push_cast
        rw [h2']
        linarith
    · have := hcap dts 0 0
      simpa [auto_drop_run] using this

/-- Witness for C8 at rate 20 over two 1/30-second frames. -/
theorem C8_autodrop_rate_witness :
    ((auto_drop_run 20 [1 / 30, 1 / 30] 0).2 : ℤ) = ⌊(20 : ℝ) * ([1 / 30, 1 / 30] : List ℝ).sum⌋ ∧
    (auto_drop_run 20 [1 / 30, 1 / 30] 0).2 ≤ 10 * ([1 / 30, 1 / 30] : List ℝ).length := by
  refine C8_autodrop_rate.2 20 [1 / 30, 1 / 30] (by norm_num) (by norm_num) ?_
  intro dt hdt
  rcases List.mem_cons.mp hdt with rfl | hdt
  · norm_num
  · rcases List.mem_singleton.mp hdt with rfl
    norm_num

/-- Witness for C10 at a concrete over-full state with one pending color:
the spawn is rejected yet the pending queue is emptied. -/
theorem C10_lossy_drain_witness :
    fill_ratio sampleFullState ≥ HARD_STOP_AT ∧
    (defender_drop_step true (fun _ => sampleParams) sampleFullState).cookies =
      sampleFullState.cookies ∧
    (defender_drop_step true (fun _ => sampleParams) sampleFullState).pending_colors =
      sampleFullState.pending_colors.drop MAX_DROPS_PER_TICK := by
  obtain ⟨h1, _, h3⟩ :=
    C10_lossy_drain.2.2 (fun _ => sampleParams) sampleFullState sampleFullState_ratio
  exact ⟨sampleFullState_ratio, h1, h3⟩

/-! ### Degenerate-contact safety (C9) -/

/-- C9: pairwise contact resolution is a total function of any input
pair; when the squared center distance is at most 1e-9 the delta is
replaced by a 0.01-length vector at the random angle θ, and in every case
the working dist2 stays above the 1e-9 threshold, the contact distance
the branches divide by is strictly positive, and the resulting contact
normal is a well-defined unit vector — no branch divides by zero. -/
theorem C9_degenerate_safety :
    ∀ (θ : ℝ) (a b : CookieBody),
      ((b.x - a.x) * (b.x - a.x) + (b.y - a.y) * (b.y - a.y) ≤ 1e-9 →
        resolve_delta θ a b = (Real.cos θ * 0.01, Real.sin θ * 0.01)) ∧
      (1e-9 : ℝ) < resolve_dist2 θ a b ∧
      0 < resolve_dist θ a b ∧
      ((resolve_delta θ a b).1 / resolve_dist θ a b) *
          ((resolve_delta θ a b).1 / resolve_dist θ a b) +
        ((resolve_delta θ a b).2 / resolve_dist θ a b) *
          ((resolve_delta θ a b).2 / resolve_dist θ a b) = 1 := by
  intro θ a b
  have hpyth := Real.sin_sq_add_cos_sq θ
  have hd2 : (1e-9 : ℝ) < resolve_dist2 θ a b := by
    unfold resolve_dist2 resolve_delta
    by_cases h : (b.x - a.x) * (b.x - a.x) + (b.y - a.y) * (b.y - a.y) ≤ 1e-9
    · rw [if_pos h]
      simp only []
      nlinarith [hpyth]
    · rw [if_neg h]
      simp only []
      linarith [lt_of_not_le h]
  have hd2pos : (0 : ℝ) < resolve_dist2 θ a b := lt_trans (by norm_num) hd2
  have hdist : 0 < resolve_dist θ a b := Real.sqrt_pos.mpr hd2pos
  have hsq : resolve_dist θ a b * resolve_dist θ a b = resolve_dist2 θ a b :=
    Real.mul_self_sqrt hd2pos.le
  refine ⟨?_, hd2, hdist, ?_⟩
  · intro h
    unfold resolve_delta
    rw [if_pos h]
  · rw [div_mul_div_comm, div_mul_div_comm, div_add_div_same, hsq]
    exact div_self (ne_of_gt hd2pos)

/-- Witness for C9 at a coincident pair: the delta is the perturbation
vector and the working dist2 clears the degeneracy threshold. -/
theorem C9_degenerate_safety_witness :
    ((sampleSleeping.x - sampleSleeping.x) * (sampleSleeping.x - sampleSleeping.x) +
        (sampleSleeping.y - sampleSleeping.y) * (sampleSleeping.y - sampleSleeping.y) ≤ 1e-9) ∧
    resolve_delta 0 sampleSleeping sampleSleeping = (Real.cos 0 * 0.01, Real.sin 0 * 0.01) ∧
    (1e-9 : ℝ) < resolve_dist2 0 sampleSleeping sampleSleeping := by
  have h := C9_degenerate_safety 0 sampleSleeping sampleSleeping
  have hco : (sampleSleeping.x - sampleSleeping.x) * (sampleSleeping.x - sampleSleeping.x) +
      (sampleSleeping.y - sampleSleeping.y) * (sampleSleeping.y - sampleSleeping.y) ≤ 1e-9 := by
    norm_num
  exact ⟨hco, h.1 hco, h.2.1⟩

/-! ### Pairwise anchoring and impulse (C7) -/

theorem resolve_positional_one_asleep_a (nx ny ov : ℝ) (a b : CookieBody)
    (hA : a.asleep = true) (hB : b.asleep = false) :
    resolve_positional nx ny ov a b =
      (a, { b with x := b.x + nx * ov, y := b.y + ny * ov }) := by
  unfold resolve_positional
  rw [if_pos ⟨hA, by simp [hB]⟩]

theorem resolve_positional_one_asleep_b (nx ny ov : ℝ) (a b : CookieBody)
    (hB : b.asleep = true) (hA : a.asleep = false) :
    resolve_positional nx ny ov a b =
      ({ a with x := a.x - nx * ov, y := a.y - ny * ov }, b) := by
  unfold resolve_positional
  rw [if_neg (by simp [hA]), if_pos ⟨hB, by simp [hA]⟩]

theorem resolve_positional_even (nx ny ov : ℝ) (a b : CookieBody)
    (h : a.asleep = b.asleep) :
    resolve_positional nx ny ov a b =
      ({ a with x := a.x - nx * (ov * 0.5), y := a.y - ny * (ov * 0.5) },
       { b with x := b.x + nx * (ov * 0.5), y := b.y + ny * (ov * 0.5) }) := by
  unfold resolve_positional
  rw [if_neg (by rw [h]; exact fun hh => hh.2 hh.1),
    if_neg (by rw [h]; exact fun hh => hh.2 hh.1)]

theorem resolve_positional_keeps (nx ny ov : ℝ) (a b : CookieBody) :
    (resolve_positional nx ny ov a b).1.vx = a.vx ∧
    (resolve_positional nx ny ov a b).1.vy = a.vy ∧
    (resolve_positional nx ny ov a b).1.asleep = a.asleep ∧
    (resolve_positional nx ny ov a b).2.vx = b.vx ∧
    (resolve_positional nx ny ov a b).2.vy = b.vy ∧
    (resolve_positional nx ny ov a b).2.asleep = b.asleep := by
  unfold resolve_positional
  split_ifs <;> exact ⟨rfl, rfl, rfl, rfl, rfl, rfl⟩

theorem resolve_wake_keeps (ov : ℝ) (a b : CookieBody) :
    (resolve_wake ov a b).1.x = a.x ∧ (resolve_wake ov a b).1.y = a.y ∧
    (resolve_wake ov a b).1.vx = a.vx ∧ (resolve_wake ov a b).1.vy = a.vy ∧
    (resolve_wake ov a b).2.x = b.x ∧ (resolve_wake ov a b).2.y = b.y ∧
    (resolve_wake ov a b).2.vx = b.vx ∧ (resolve_wake ov a b).2.vy = b.vy := by
  unfold resolve_wake
  split_ifs <;> exact ⟨rfl, rfl, rfl, rfl, rfl, rfl, rfl, rfl⟩

theorem resolve_impulse_keeps (nx ny : ℝ) (a b : CookieBody) :
    (resolve_impulse nx ny a b).1.x = a.x ∧ (resolve_impulse nx ny a b).1.y = a.y ∧
    (resolve_impulse nx ny a b).1.asleep = a.asleep ∧
    (resolve_impulse nx ny a b).2.x = b.x ∧ (resolve_impulse nx ny a b).2.y = b.y ∧
    (resolve_impulse nx ny a b).2.asleep = b.asleep := by
  unfold resolve_impulse
  split_ifs <;> exact ⟨rfl, rfl, rfl, rfl, rfl, rfl⟩

theorem resolve_impulse_sep (nx ny : ℝ) (a b : CookieBody)
    (h : 0 ≤ pair_vel_n nx ny a b) :
    (resolve_impulse nx ny a b).1.vx = a.vx ∧ (resolve_impulse nx ny a b).1.vy = a.vy ∧
    (resolve_impulse nx ny a b).2.vx = b.vx ∧ (resolve_impulse nx ny a b).2.vy = b.vy := by
  unfold resolve_impulse
  by_cases hv : pair_vel_n nx ny a b > 0
  · rw [if_pos hv]
    exact ⟨rfl, rfl, rfl, rfl⟩
  · have h0 : pair_vel_n nx ny a b = 0 := le_antisymm (not_lt.mp hv) h
    have hj : impulse_j nx ny a b = 0 := by
      rw [impulse_j, h0]
      ring
    rw [if_neg hv]
    split_ifs <;> simp [hj]

theorem resolve_impulse_app (nx ny : ℝ) (a b : CookieBody)
    (h : pair_vel_n nx ny a b < 0) :
    resolve_impulse nx ny a b =
      (if ¬ a.asleep then
        { a with vx := a.vx - impulse_j nx ny a b * nx, vy := a.vy - impulse_j nx ny a b * ny }
       else a,
       if ¬ b.asleep then
        { b with vx := b.vx + impulse_j nx ny a b * nx, vy := b.vy + impulse_j nx ny a b * ny }
       else b) := by
  unfold resolve_impulse
  rw [if_neg (not_lt.mpr h.le)]

/-- C7: under a non-degenerate overlapping contact, the positional
correction anchors on a sleeping partner (the awake body takes the full
overlap, the sleeping body's position is unchanged) and is split in half
when both flags agree; the velocities change only when the pair is
approaching (relative normal velocity negative), and then the impulse
goes exactly to the members that are not asleep at impulse time. -/
theorem C7_pairwise_anchoring (θ : ℝ) (a b : CookieBody)
    (h1 : 1e-9 < (b.x - a.x) * (b.x - a.x) + (b.y - a.y) * (b.y - a.y))
    (h2 : (b.x - a.x) * (b.x - a.x) + (b.y - a.y) * (b.y - a.y) < (a.r + b.r) * (a.r + b.r)) :
    (a.asleep = true → b.asleep = false →
      (resolve_circle_collision θ a b).1.x = a.x ∧
      (resolve_circle_collision θ a b).1.y = a.y ∧
      (resolve_circle_collision θ a b).2.x =
        b.x + (b.x - a.x) / resolve_dist θ a b * (a.r + b.r - resolve_dist θ a b) ∧
      (resolve_circle_collision θ a b).2.y =
        b.y + (b.y - a.y) / resolve_dist θ a b * (a.r + b.r - resolve_dist θ a b)) ∧
    (b.asleep = true → a.asleep = false →
      (resolve_circle_collision θ a b).2.x = b.x ∧
      (resolve_circle_collision θ a b).2.y = b.y ∧
      (resolve_circle_collision θ a b).1.x =
        a.x - (b.x - a.x) / resolve_dist θ a b * (a.r + b.r - resolve_dist θ a b) ∧
      (resolve_circle_collision θ a b).1.y =
        a.y - (b.y - a.y) / resolve_dist θ a b * (a.r + b.r - resolve_dist θ a b)) ∧
    (a.asleep = b.asleep →
      (resolve_circle_collision θ a b).1.x =
        a.x - (b.x - a.x) / resolve_dist θ a b * ((a.r + b.r - resolve_dist θ a b) * 0.5) ∧
      (resolve_circle_collision θ a b).1.y =
        a.y - (b.y - a.y) / resolve_dist θ a b * ((a.r + b.r - resolve_dist θ a b) * 0.5) ∧
      (resolve_circle_collision θ a b).2.x =
        b.x + (b.x - a.x) / resolve_dist θ a b * ((a.r + b.r - resolve_dist θ a b) * 0.5) ∧
      (resolve_circle_collision θ a b).2.y =
        b.y + (b.y - a.y) / resolve_dist θ a b * ((a.r + b.r - resolve_dist θ a b) * 0.5)) ∧
    (0 ≤ pair_vel_n ((b.x - a.x) / resolve_dist θ a b) ((b.y - a.y) / resolve_dist θ a b) a b →
      (resolve_circle_collision θ a b).1.vx = a.vx ∧
      (resolve_circle_collision θ a b).1.vy = a.vy ∧
      (resolve_circle_collision θ a b).2.vx = b.vx ∧
      (resolve_circle_collision θ a b).2.vy = b.vy) ∧
    (pair_vel_n ((b.x - a.x) / resolve_dist θ a b) ((b.y - a.y) / resolve_dist θ a b) a b < 0 →
      ((resolve_circle_collision θ a b).1.asleep = true →
        (resolve_circle_collision θ a b).1.vx = a.vx ∧
        (resolve_circle_collision θ a b).1.vy = a.vy) ∧
      ((resolve_circle_collision θ a b).1.asleep = false →
        (resolve_circle_collision θ a b).1.vx =
          a.vx - impulse_j ((b.x - a.x) / resolve_dist θ a b)
            ((b.y - a.y) / resolve_dist θ a b) a b * ((b.x - a.x) / resolve_dist θ a b) ∧
        (resolve_circle_collision θ a b).1.vy =
          a.vy - impulse_j ((b.x - a.x) / resolve_dist θ a b)
            ((b.y - a.y) / resolve_dist θ a b) a b * ((b.y - a.y) / resolve_dist θ a b)) ∧
      ((resolve_circle_collision θ a b).2.asleep = true →
        (resolve_circle_collision θ a b).2.vx = b.vx ∧
        (resolve_circle_collision θ a b).2.vy = b.vy) ∧
      ((resolve_circle_collision θ a b).2.asleep = false →
        (resolve_circle_collision θ a b).2.vx =
          b.vx + impulse_j ((b.x - a.x) / resolve_dist θ a b)
            ((b.y - a.y) / resolve_dist θ a b) a b * ((b.x - a.x) / resolve_dist θ a b) ∧
        (resolve_circle_collision θ a b).2.vy =
          b.vy + impulse_j ((b.x - a.x) / resolve_dist θ a b)
            ((b.y - a.y) / resolve_dist θ a b) a b * ((b.y - a.y) / resolve_dist θ a b))) := by
  have hdelta : resolve_delta θ a b = (b.x - a.x, b.y - a.y) := by
    unfold resolve_delta
    rw [if_neg (not_le.mpr h1)]
  have hd2 : resolve_dist2 θ a b =
      (b.x - a.x) * (b.x - a.x) + (b.y - a.y) * (b.y - a.y) := by
    unfold resolve_dist2
    rw [hdelta]
  have hguard : ¬ resolve_dist2 θ a b ≥ (a.r + b.r) * (a.r + b.r) := by
    rw [hd2]
    exact not_le.mpr h2
  set dist := resolve_dist θ a b with hdist
  set nx := (b.x - a.x) / dist with hnx
  set ny := (b.y - a.y) / dist with hny
  set ov := a.r + b.r - dist with hov
  set p := resolve_positional nx ny ov a b with hp
  set w := resolve_wake ov p.1 p.2 with hw
  have hres : resolve_circle_collision θ a b = resolve_impulse nx ny w.1 w.2 := by
    simp only [resolve_circle_collision]
    rw [if_neg hguard, hdelta]
  obtain ⟨hpvx, hpvy, hpas, hpvx2, hpvy2, hpas2⟩ := resolve_positional_keeps nx ny ov a b
  obtain ⟨hwx, hwy, hwvx, hwvy, hwx2, hwy2, hwvx2, hwvy2⟩ := resolve_wake_keeps ov p.1 p.2
  obtain ⟨hix, hiy, hias, hix2, hiy2, hias2⟩ := resolve_impulse_keeps nx ny w.1 w.2
  have hvelw : pair_vel_n nx ny w.1 w.2 = pair_vel_n nx ny a b := by
    unfold pair_vel_n
    rw [hwvx, hwvy, hwvx2, hwvy2, hpvx, hpvy, hpvx2, hpvy2]
  have hjw : impulse_j nx ny w.1 w.2 = impulse_j nx ny a b := by
    unfold impulse_j
    rw [hvelw]
  refine ⟨?_, ?_, ?_, ?_, ?_⟩
  · intro hA hB
    have hpx : p = (a, { b with x := b.x + nx * ov, y := b.y + ny * ov }) :=
      resolve_positional_one_asleep_a nx ny ov a b hA hB
    rw [hres]
    rw [hix, hiy, hix2, hiy2, hwx, hwy, hwx2, hwy2, hpx]
    exact ⟨rfl, rfl, rfl, rfl⟩
  · intro hB hA
    have hpx : p = ({ a with x := a.x - nx * ov, y := a.y - ny * ov }, b) :=
      resolve_positional_one_asleep_b nx ny ov a b hB hA
    rw [hres]
    rw [hix, hiy, hix2, hiy2, hwx, hwy, hwx2, hwy2, hpx]
    exact ⟨rfl, rfl, rfl, rfl⟩
  · intro hAB
    have hpx : p = ({ a with x := a.x - nx * (ov * 0.5), y := a.y - ny * (ov * 0.5) },
        { b with x := b.x + nx * (ov * 0.5), y := b.y + ny * (ov * 0.5) }) :=
      resolve_positional_even nx ny ov a b hAB
    rw [hres]
    rw [hix, hiy, hix2, hiy2, hwx, hwy, hwx2, hwy2, hpx]
    exact ⟨rfl, rfl, rfl, rfl⟩
  · intro hsep
    have := resolve_impulse_sep nx ny w.1 w.2 (by rw [hvelw]; exact hsep)
    rw [hres]
    obtain ⟨e1, e2, e3, e4⟩ := this
    rw [e1, e2, e3, e4, hwvx, hwvy, hwvx2, hwvy2, hpvx, hpvy, hpvx2, hpvy2]
    exact ⟨rfl, rfl, rfl, rfl⟩
  · intro happ
    have happ' : pair_vel_n nx ny w.1 w.2 < 0 := by
      rw [hvelw]
      exact happ
    have heq := resolve_impulse_app nx ny w.1 w.2 happ'
    rw [hres, heq]
    rw [hjw]
    by_cases hWA : w.1.asleep = true
    · by_cases hWB : w.2.asleep = true
      · rw [if_neg (by simp [hWA]), if_neg (by simp [hWB])]
        refine ⟨fun _ => ⟨?_, ?_⟩, fun hfalse => by simp [hWA] at hfalse, fun _ => ⟨?_, ?_⟩,
          fun hfalse => by simp [hWB] at hfalse⟩
        · rw [hwvx, hpvx]
        · rw [hwvy, hpvy]
        · rw [hwvx2, hpvx2]
        · rw [hwvy2, hpvy2]
      · rw [if_neg (by simp [hWA]), if_pos (by simp [hWB])]
        refine ⟨fun _ => ⟨?_, ?_⟩, fun hfalse => by simp [hWA] at hfalse,
          fun htrue => absurd htrue hWB, fun _ => ⟨?_, ?_⟩⟩
        · rw [hwvx, hpvx]
        · rw [hwvy, hpvy]
        · show w.2.vx + _ = _
          rw [hwvx2, hpvx2]
        · show w.2.vy + _ = _
          rw [hwvy2, hpvy2]
    · by_cases hWB : w.2.asleep = true
      · rw [if_pos (by simp [hWA]), if_neg (by simp [hWB])]
        refine ⟨fun htrue => absurd htrue hWA, fun _ => ⟨?_, ?_⟩, fun _ => ⟨?_, ?_⟩,
          fun hfalse => by simp [hWB] at hfalse⟩
        · show w.1.vx - _ = _
          rw [hwvx, hpvx]
        · show w.1.vy - _ = _
          rw [hwvy, hpvy]
        · rw [hwvx2, hpvx2]
        · rw [hwvy2, hpvy2]
      · rw [if_pos (by simp [hWA]), if_pos (by simp [hWB])]
        refine ⟨fun htrue => absurd htrue hWA, fun _ => ⟨?_, ?_⟩,
          fun htrue => absurd htrue hWB, fun _ => ⟨?_, ?_⟩⟩
        · show w.1.vx - _ = _
          rw [hwvx, hpvx]
        · show w.1.vy - _ = _
          rw [hwvy, hpvy]
        · show w.2.vx + _ = _
          rw [hwvx2, hpvx2]
        · show w.2.vy + _ = _
          rw [hwvy2, hpvy2]

noncomputable section

/-- Left body of a concrete overlapping awake pair, 20 units apart. -/
def samplePairA : CookieBody :=
  { colorName := "red", r := 14, x := 539.8, y := 348.4, vx := 5, vy := 0,
    asleep := false, sleepCounter := 0, underwater := true, wobblePhase := 0, wobbleFreq := 1 }

/-- Right body of the concrete pair. -/
def samplePairB : CookieBody :=
  { colorName := "blue", r := 14, x := 559.8, y := 348.4, vx := 0, vy := 0,
    asleep := false, sleepCounter := 0, underwater := true, wobblePhase := 0, wobbleFreq := 1 }

end

/-- Witness for C7 at the concrete overlapping pair: the contact is
non-degenerate and overlapping, and since both bodies are awake the
positional correction is split evenly. -/
theorem C7_pairwise_anchoring_witness :
    ((1e-9 : ℝ) < (samplePairB.x - samplePairA.x) * (samplePairB.x - samplePairA.x) +
      (samplePairB.y - samplePairA.y) * (samplePairB.y - samplePairA.y)) ∧
    ((samplePairB.x - samplePairA.x) * (samplePairB.x - samplePairA.x) +
      (samplePairB.y - samplePairA.y) * (samplePairB.y - samplePairA.y) <
      (samplePairA.r + samplePairB.r) * (samplePairA.r + samplePairB.r)) ∧
    ((resolve_circle_collision 0 samplePairA samplePairB).1.x =
      samplePairA.x - (samplePairB.x - samplePairA.x) / resolve_dist 0 samplePairA samplePairB *
        ((samplePairA.r + samplePairB.r - resolve_dist 0 samplePairA samplePairB) * 0.5) ∧
    (resolve_circle_collision 0 samplePairA samplePairB).1.y =
      samplePairA.y - (samplePairB.y - samplePairA.y) / resolve_dist 0 samplePairA samplePairB *
        ((samplePairA.r + samplePairB.r - resolve_dist 0 samplePairA samplePairB) * 0.5) ∧
    (resolve_circle_collision 0 samplePairA samplePairB).2.x =
      samplePairB.x + (samplePairB.x - samplePairA.x) / resolve_dist 0 samplePairA samplePairB *
        ((samplePairA.r + samplePairB.r - resolve_dist 0 samplePairA samplePairB) * 0.5) ∧
    (resolve_circle_collision 0 samplePairA samplePairB).2.y =
      samplePairB.y + (samplePairB.y - samplePairA.y) / resolve_dist 0 samplePairA samplePairB *
        ((samplePairA.r + samplePairB.r - resolve_dist 0 samplePairA samplePairB) * 0.5)) := by
  have h1 : (1e-9 : ℝ) < (samplePairB.x - samplePairA.x) * (samplePairB.x - samplePairA.x) +
      (samplePairB.y - samplePairA.y) * (samplePairB.y - samplePairA.y) := by
    norm_num [samplePairA, samplePairB]
  have h2 : (samplePairB.x - samplePairA.x) * (samplePairB.x - samplePairA.x) +
      (samplePairB.y - samplePairA.y) * (samplePairB.y - samplePairA.y) <
      (samplePairA.r + samplePairB.r) * (samplePairA.r + samplePairB.r) := by
    norm_num [samplePairA, samplePairB]
  exact ⟨h1, h2, (C7_pairwise_anchoring 0 samplePairA samplePairB h1 h2).2.2.1 rfl⟩

/-! ### Boundary collision branch characterizations (shared by C3, C5) -/

theorem collide_cookie_funnel_eq (col : EllipseBowlCollider) (c : CookieBody)
    (hfun : c.y < col.rim_y - c.r * 0.6) :
    col.collide_cookie c = { c with x := col.opening_clamp_x c.x c.r } := by
  unfold EllipseBowlCollider.collide_cookie
  rw [if_pos hfun]

theorem collide_cookie_inside_eq (col : EllipseBowlCollider) (c : CookieBody)
    (hfun : ¬ c.y < col.rim_y - c.r * 0.6) (hin : shrunk_s2 col c ≤ 1)
    (hnc : ¬ c.y < col.rim_y + c.r) :
    col.collide_cookie c = c := by
  simp only [EllipseBowlCollider.collide_cookie]
  rw [if_neg hfun, if_pos hin, if_neg hnc]

theorem collide_cookie_outside_nlen_eq (col : EllipseBowlCollider) (c : CookieBody)
    (hfun : ¬ c.y < col.rim_y - c.r * 0.6) (hout : ¬ shrunk_s2 col c ≤ 1)
    (hnl : grad_nlen col c < 1e-9) :
    col.collide_cookie c =
      { c with x := col.cx + (c.x - col.cx) / Real.sqrt (shrunk_s2 col c),
               y := col.cy + (c.y - col.cy) / Real.sqrt (shrunk_s2 col c) } := by
  simp only [EllipseBowlCollider.collide_cookie]
  rw [if_neg hfun, if_neg hout,
    if_pos (show shrunk_s2 col c > 1e-12 by nlinarith [not_le.mp hout]), if_pos hnl]

theorem collide_cookie_outside_eq (col : EllipseBowlCollider) (c : CookieBody)
    (hfun : ¬ c.y < col.rim_y - c.r * 0.6) (hout : ¬ shrunk_s2 col c ≤ 1)
    (hnl : ¬ grad_nlen col c < 1e-9)
    (hnoclamp : ¬ col.cy + (c.y - col.cy) / Real.sqrt (shrunk_s2 col c) < col.rim_y + c.r) :
    col.collide_cookie c =
      { c with x := col.cx + (c.x - col.cx) / Real.sqrt (shrunk_s2 col c),
               y := col.cy + (c.y - col.cy) / Real.sqrt (shrunk_s2 col c),
               vx := (c.vx - (1 + BOWL_RESTITUTION) *
                   (c.vx * (grad_nx col c / grad_nlen col c) +
                     c.vy * (grad_ny col c / grad_nlen col c)) *
                   (grad_nx col c / grad_nlen col c)) * 0.99,
               vy := (c.vy - (1 + BOWL_RESTITUTION) *
                   (c.vx * (grad_nx col c / grad_nlen col c) +
                     c.vy * (grad_ny col c / grad_nlen col c)) *
                   (grad_ny col c / grad_nlen col c)) * 0.995 } := by
  simp only [EllipseBowlCollider.collide_cookie]
  rw [if_neg hfun, if_neg hout,
    if_pos (show shrunk_s2 col c > 1e-12 by nlinarith [not_le.mp hout]), if_neg hnl,
    if_neg hnoclamp]

theorem project_s2_arith (X Y A B S : ℝ) (hA : 0 < A) (hB : 0 < B) (hS : 0 < S)
    (hss : S * S = X / A * (X / A) + Y / B * (Y / B)) :
    X / S / A * (X / S / A) + Y / S / B * (Y / S / B) = 1 := by
  have h1 : X / S / A * (X / S / A) + Y / S / B * (Y / S / B) =
      (X / A * (X / A) + Y / B * (Y / B)) / (S * S) := by
    field_simp
    ring
  rw [h1, ← hss]
  exact div_self (by positivity)

/-- Projecting onto the shrunk ellipse lands exactly on it. -/
theorem shrunk_s2_project (col : EllipseBowlCollider) (c : CookieBody)
    (hout : 1 < shrunk_s2 col c) :
    shrunk_s2 col
      { c with x := col.cx + (c.x - col.cx) / Real.sqrt (shrunk_s2 col c),
               y := col.cy + (c.y - col.cy) / Real.sqrt (shrunk_s2 col c) } = 1 := by
  have ha : (0 : ℝ) < shrunk_a col c := lt_of_lt_of_le (by norm_num) (le_max_left 5 _)
  have hb : (0 : ℝ) < shrunk_b col c := lt_of_lt_of_le (by norm_num) (le_max_left 5 _)
  have hs2pos : (0 : ℝ) < shrunk_s2 col c := lt_trans zero_lt_one hout
  have hs : (0 : ℝ) < Real.sqrt (shrunk_s2 col c) := Real.sqrt_pos.mpr hs2pos
  have hss : Real.sqrt (shrunk_s2 col c) * Real.sqrt (shrunk_s2 col c) = shrunk_s2 col c :=
    Real.mul_self_sqrt hs2pos.le
  show (col.cx + (c.x - col.cx) / Real.sqrt (shrunk_s2 col c) - col.cx) / shrunk_a col c *
      ((col.cx + (c.x - col.cx) / Real.sqrt (shrunk_s2 col c) - col.cx) / shrunk_a col c) +
    (col.cy + (c.y - col.cy) / Real.sqrt (shrunk_s2 col c) - col.cy) / shrunk_b col c *
      ((col.cy + (c.y - col.cy) / Real.sqrt (shrunk_s2 col c) - col.cy) / shrunk_b col c) = 1
  have e1 : col.cx + (c.x - col.cx) / Real.sqrt (shrunk_s2 col c) - col.cx =
      (c.x - col.cx) / Real.sqrt (shrunk_s2 col c) := by ring
  have e2 : col.cy + (c.y - col.cy) / Real.sqrt (shrunk_s2 col c) - col.cy =
      (c.y - col.cy) / Real.sqrt (shrunk_s2 col c) := by ring
  rw [e1, e2]
  exact project_s2_arith (c.x - col.cx) (c.y - col.cy) (shrunk_a col c) (shrunk_b col c)
    (Real.sqrt (shrunk_s2 col c)) ha hb hs (by rw [hss]; rfl)

theorem shrunk_s2_congr (col : EllipseBowlCollider) (c d : CookieBody)
    (hx : c.x = d.x) (hy : c.y = d.y) (hrr : c.r = d.r) :
    shrunk_s2 col c = shrunk_s2 col d := by
  unfold shrunk_s2 shrunk_a shrunk_b
  rw [hx, hy, hrr]

/-! ### The app's numeric geometry -/

theorem app_cx (area : ℝ) : (appCollider area).cx = 395.2 := by
  norm_num [appCollider, bowl_cx, canvas_w]

theorem app_cy (area : ℝ) : (appCollider area).cy = 348.4 := by
  norm_num [appCollider, bowl_cy, canvas_h]

theorem app_a (area : ℝ) : (appCollider area).a = 178.6 := by
  norm_num [appCollider, bowl_a, canvas_w]

theorem app_b (area : ℝ) : (appCollider area).b = 153.4 := by
  norm_num [appCollider, bowl_b, canvas_h]

theorem app_rim (area : ℝ) : (appCollider area).rim_y = 156 := by
  norm_num [appCollider, app_rim_y, canvas_h]

theorem app_water : water_y = 186.68 := by
  norm_num [water_y, app_rim_y, bowl_b, canvas_w, canvas_h]

theorem app_shrunk_a (area : ℝ) (c : CookieBody) (hr : c.r ≤ 18) :
    shrunk_a (appCollider area) c = 178.6 - c.r := by
  unfold shrunk_a
  rw [app_a]
  exact max_eq_right (by linarith)

theorem app_shrunk_b (area : ℝ) (c : CookieBody) (hr : c.r ≤ 18) :
    shrunk_b (appCollider area) c = 153.4 - c.r := by
  unfold shrunk_b
  rw [app_b]
  exact max_eq_right (by linarith)

theorem app_shrunk_s2_eq (area : ℝ) (c : CookieBody) (hr : c.r ≤ 18) :
    shrunk_s2 (appCollider area) c =
      (c.x - 395.2) / (178.6 - c.r) * ((c.x - 395.2) / (178.6 - c.r)) +
        (c.y - 348.4) / (153.4 - c.r) * ((c.y - 348.4) / (153.4 - c.r)) := by
  unfold shrunk_s2
  rw [app_shrunk_a area c hr, app_shrunk_b area c hr, app_cx, app_cy]

/-- Inside the shrunk ellipse of the app's bowl, a body with a spawnable
radius sits at least at y = 195 + r, well below the rim clamp zone. -/
theorem app_inside_no_clamp (area : ℝ) (c : CookieBody) (hr : c.r ≤ 18)
    (hin : shrunk_s2 (appCollider area) c ≤ 1) :
    ¬ c.y < (appCollider area).rim_y + c.r := by
  rw [app_rim]
  intro hlt
  rw [app_shrunk_s2_eq area c hr] at hin
  have hbpos : (0 : ℝ) < 153.4 - c.r := by linarith
  set v := (c.y - 348.4) / (153.4 - c.r) with hv
  have hvB : v * (153.4 - c.r) = c.y - 348.4 := div_mul_cancel₀ _ (ne_of_gt hbpos)
  have hv2 : v * v ≤ 1 := by
    nlinarith [mul_self_nonneg ((c.x - 395.2) / (178.6 - c.r))]
  have hvge : -1 ≤ v := by nlinarith [mul_self_nonneg (v + 1)]
  have hyge : 195 + c.r ≤ c.y := by nlinarith
  linarith

/-- After projecting onto the app's shrunk ellipse, a body with a
spawnable radius again sits at least at y = 195 + r: the trailing rim
clamp of collide_cookie never fires. -/
theorem app_project_no_clamp (area : ℝ) (c : CookieBody) (hr : c.r ≤ 18)
    (hout : 1 < shrunk_s2 (appCollider area) c) :
    ¬ (appCollider area).cy +
        (c.y - (appCollider area).cy) / Real.sqrt (shrunk_s2 (appCollider area) c) <
      (appCollider area).rim_y + c.r := by
  rw [app_rim, app_cy]
  intro hlt
  have hbpos : (0 : ℝ) < 153.4 - c.r := by linarith
  have hs2pos : (0 : ℝ) < shrunk_s2 (appCollider area) c := lt_trans zero_lt_one hout
  set S := Real.sqrt (shrunk_s2 (appCollider area) c) with hS
  have hSpos : 0 < S := Real.sqrt_pos.mpr hs2pos
  have hSS : S * S = shrunk_s2 (appCollider area) c := Real.mul_self_sqrt hs2pos.le
  have hs2eq := app_shrunk_s2_eq area c hr
  set v := (c.y - 348.4) / (153.4 - c.r) with hv
  have hvB : v * (153.4 - c.r) = c.y - 348.4 := div_mul_cancel₀ _ (ne_of_gt hbpos)
  have hv2 : v * v ≤ S * S := by
    rw [hSS, hs2eq]
    nlinarith [mul_self_nonneg ((c.x - 395.2) / (178.6 - c.r))]
  have hvge : -S ≤ v := by nlinarith [mul_self_nonneg (v + S)]
  have key : -(153.4 - c.r) ≤ (c.y - 348.4) / S := by
    have h0 : 0 ≤ (v + S) * ((153.4 - c.r) / S) :=
      mul_nonneg (by linarith) (by positivity)
    have hexp : (v + S) * ((153.4 - c.r) / S) = (c.y - 348.4) / S + (153.4 - c.r) := by
      rw [← hvB]
      field_simp
      ring
    linarith [hexp ▸ h0]
  linarith

/-- C3 amended: for every body with a spawnable radius (spawn draws r
from [11, 18]), one application of the app bowl's boundary collision
establishes the containment disjunction: the body is in the funnel zone
above rim_y - 0.6 r, or it satisfies the shrunk-ellipse test.  (The full
step does not guarantee this — pairwise resolution runs after the
boundary pass and can displace a body off the shrunk ellipse, see the
counterexample.) -/
theorem C3_containment_after_collide (area : ℝ) (c : CookieBody)
    (hr1 : 11 ≤ c.r) (hr2 : c.r ≤ 18) :
    ((appCollider area).collide_cookie c).y <
        (appCollider area).rim_y - ((appCollider area).collide_cookie c).r * 0.6 ∨
      shrunk_s2 (appCollider area) ((appCollider area).collide_cookie c) ≤ 1 := by
  by_cases hfun : c.y < (appCollider area).rim_y - c.r * 0.6
  · left
    rw [collide_cookie_funnel_eq _ _ hfun]
    exact hfun
  by_cases hin : shrunk_s2 (appCollider area) c ≤ 1
  · right
    rw [collide_cookie_inside_eq _ _ hfun hin (app_inside_no_clamp area c hr2 hin)]
    exact hin
  right
  have hout' : 1 < shrunk_s2 (appCollider area) c := not_le.mp hin
  by_cases hnl : grad_nlen (appCollider area) c < 1e-9
  · rw [collide_cookie_outside_nlen_eq _ _ hfun hin hnl]
    exact le_of_eq (shrunk_s2_project _ _ hout')
  · rw [collide_cookie_outside_eq _ _ hfun hin hnl (app_project_no_clamp area c hr2 hout')]
    exact le_of_eq (shrunk_s2_project _ _ hout')

/-! ### Boundary reflection (C5) -/

/-- C5 amended: when collide_cookie is applied to a body (of spawnable
radius) outside the radius-shrunk ellipse, not in the funnel zone and
with a non-degenerate boundary gradient, the body is projected back onto
the shrunk ellipse along the direction from the container center (the
result satisfies the shrunk-ellipse equation exactly), the velocity's
normal component is reflected with BOWL_RESTITUTION, and then per-axis
damping factors — 0.99 on vx and 0.995 on vy, not one uniform factor —
are applied. -/
theorem C5_boundary_reflection (area : ℝ) (c : CookieBody)
    (hr2 : c.r ≤ 18)
    (hfun : ¬ c.y < (appCollider area).rim_y - c.r * 0.6)
    (hout : ¬ shrunk_s2 (appCollider area) c ≤ 1)
    (hnl : ¬ grad_nlen (appCollider area) c < 1e-9) :
    ((appCollider area).collide_cookie c).x = (appCollider area).cx +
      (c.x - (appCollider area).cx) / Real.sqrt (shrunk_s2 (appCollider area) c) ∧
    ((appCollider area).collide_cookie c).y = (appCollider area).cy +
      (c.y - (appCollider area).cy) / Real.sqrt (shrunk_s2 (appCollider area) c) ∧
    shrunk_s2 (appCollider area) ((appCollider area).collide_cookie c) = 1 ∧
    ((appCollider area).collide_cookie c).vx =
      (c.vx - (1 + BOWL_RESTITUTION) *
        (c.vx * (grad_nx (appCollider area) c / grad_nlen (appCollider area) c) +
          c.vy * (grad_ny (appCollider area) c / grad_nlen (appCollider area) c)) *
        (grad_nx (appCollider area) c / grad_nlen (appCollider area) c)) * 0.99 ∧
    ((appCollider area).collide_cookie c).vy =
      (c.vy - (1 + BOWL_RESTITUTION) *
        (c.vx * (grad_nx (appCollider area) c / grad_nlen (appCollider area) c) +
          c.vy * (grad_ny (appCollider area) c / grad_nlen (appCollider area) c)) *
        (grad_ny (appCollider area) c / grad_nlen (appCollider area) c)) * 0.995 := by
  have heq := collide_cookie_outside_eq _ _ hfun hout hnl
    (app_project_no_clamp area c hr2 (not_le.mp hout))
  rw [heq]
  exact ⟨rfl, rfl, le_antisymm (le_of_eq (shrunk_s2_project _ _ (not_le.mp hout)))
    (ge_of_eq (shrunk_s2_project _ _ (not_le.mp hout))), rfl, rfl⟩

noncomputable section

/-- A concrete body outside the shrunk ellipse, level with the bowl
center, moving diagonally. -/
def c5Body : CookieBody :=
  { colorName := "red", r := 14, x := 565.2, y := 348.4, vx := 100, vy := 100,
    asleep := false, sleepCounter := 0, underwater := true, wobblePhase := 0, wobbleFreq := 1 }

/-- The velocity update the C5 claim describes: reflect the normal
component with the fixed restitution, then apply one uniform damping
factor d to both components.  Stated from the spec's wording, for
comparison with collide_cookie, which applies per-axis factors 0.99 and
0.995. -/
def spec_uniform_damped (col : EllipseBowlCollider) (c : CookieBody) (d : ℝ) : ℝ × ℝ :=
  (d * (c.vx - (1 + BOWL_RESTITUTION) *
      (c.vx * (grad_nx col c / grad_nlen col c) + c.vy * (grad_ny col c / grad_nlen col c)) *
      (grad_nx col c / grad_nlen col c)),
   d * (c.vy - (1 + BOWL_RESTITUTION) *
      (c.vx * (grad_nx col c / grad_nlen col c) + c.vy * (grad_ny col c / grad_nlen col c)) *
      (grad_ny col c / grad_nlen col c)))

end

theorem c5Body_r18 : c5Body.r ≤ 18 := by norm_num [c5Body]

theorem c5Body_not_funnel : ¬ c5Body.y < (appCollider 1).rim_y - c5Body.r * 0.6 := by
  rw [app_rim]
  norm_num [c5Body]

theorem c5Body_s2 : shrunk_s2 (appCollider 1) c5Body = (850 / 823) ^ 2 := by
  rw [app_shrunk_s2_eq 1 c5Body c5Body_r18]
  norm_num [c5Body]

theorem c5Body_out : ¬ shrunk_s2 (appCollider 1) c5Body ≤ 1 := by
  rw [c5Body_s2]
  norm_num

theorem c5Body_gnx : grad_nx (appCollider 1) c5Body = 170 / 27093.16 := by
  unfold grad_nx
  rw [app_shrunk_a 1 c5Body c5Body_r18, app_cx]
  norm_num [c5Body]

theorem c5Body_gny : grad_ny (appCollider 1) c5Body = 0 := by
  unfold grad_ny
  rw [app_cy]
  norm_num [c5Body]

theorem c5Body_gnlen : grad_nlen (appCollider 1) c5Body = 170 / 27093.16 := by
  unfold grad_nlen
  rw [c5Body_gnx, c5Body_gny]
  rw [show (170 / 27093.16 : ℝ) * (170 / 27093.16) + 0 * 0 = (170 / 27093.16) ^ 2 by ring]
  exact Real.sqrt_sq (by norm_num)

theorem c5Body_nl : ¬ grad_nlen (appCollider 1) c5Body < 1e-9 := by
  rw [c5Body_gnlen]
  norm_num

theorem c5Body_normal_x :
    grad_nx (appCollider 1) c5Body / grad_nlen (appCollider 1) c5Body = 1 := by
  rw [c5Body_gnx, c5Body_gnlen]
  norm_num

theorem c5Body_normal_y :
    grad_ny (appCollider 1) c5Body / grad_nlen (appCollider 1) c5Body = 0 := by
  rw [c5Body_gny]
  exact zero_div _

/-- Counterexample to C5 as stated: at the concrete outside body the code
damps the reflected velocity (-45, 100) per-axis into (-44.55, 99.5)
(0.99 on vx, 0.995 on vy); no single uniform damping factor d produces
this pair, since it would need d = 0.99 and d = 0.995 at once. -/
theorem C5_counterexample :
    ((appCollider 1).collide_cookie c5Body).vx = -44.55 ∧
    ((appCollider 1).collide_cookie c5Body).vy = 99.5 ∧
    ¬ ∃ d : ℝ,
      ((appCollider 1).collide_cookie c5Body).vx = (spec_uniform_damped (appCollider 1) c5Body d).1 ∧
      ((appCollider 1).collide_cookie c5Body).vy = (spec_uniform_damped (appCollider 1) c5Body d).2 := by
  have heq := collide_cookie_outside_eq _ _ c5Body_not_funnel c5Body_out c5Body_nl
    (app_project_no_clamp 1 c5Body c5Body_r18 (not_le.mp c5Body_out))
  have hvx : ((appCollider 1).collide_cookie c5Body).vx = -44.55 := by
    rw [heq]
    show (c5Body.vx - (1 + BOWL_RESTITUTION) *
        (c5Body.vx * (grad_nx (appCollider 1) c5Body / grad_nlen (appCollider 1) c5Body) +
          c5Body.vy * (grad_ny (appCollider 1) c5Body / grad_nlen (appCollider 1) c5Body)) *
        (grad_nx (appCollider 1) c5Body / grad_nlen (appCollider 1) c5Body)) * 0.99 = -44.55
    rw [c5Body_normal_x, c5Body_normal_y]
    norm_num [c5Body, BOWL_RESTITUTION]
  have hvy : ((appCollider 1).collide_cookie c5Body).vy = 99.5 := by
    rw [heq]
    show (c5Body.vy - (1 + BOWL_RESTITUTION) *
        (c5Body.vx * (grad_nx (appCollider 1) c5Body / grad_nlen (appCollider 1) c5Body) +
          c5Body.vy * (grad_ny (appCollider 1) c5Body / grad_nlen (appCollider 1) c5Body)) *
        (grad_ny (appCollider 1) c5Body / grad_nlen (appCollider 1) c5Body)) * 0.995 = 99.5
    rw [c5Body_normal_x, c5Body_normal_y]
    norm_num [c5Body, BOWL_RESTITUTION]
  refine ⟨hvx, hvy, ?_⟩
  rintro ⟨d, h1, h2⟩
  rw [hvx] at h1
  rw [hvy] at h2
  unfold spec_uniform_damped at h1 h2
  rw [c5Body_normal_x, c5Body_normal_y] at h1 h2
  norm_num [c5Body, BOWL_RESTITUTION] at h1 h2
  -- h1 : d * 45 = 44.55 (i.e. d = 0.99), h2 : d * 100 = 99.5 (d = 0.995)
  linarith

/-- Witness for C5's amended statement at the concrete outside body. -/
theorem C5_boundary_reflection_witness :
    (¬ c5Body.y < (appCollider 1).rim_y - c5Body.r * 0.6) ∧
    (¬ shrunk_s2 (appCollider 1) c5Body ≤ 1) ∧
    (¬ grad_nlen (appCollider 1) c5Body < 1e-9) ∧
    shrunk_s2 (appCollider 1) ((appCollider 1).collide_cookie c5Body) = 1 ∧
    ((appCollider 1).collide_cookie c5Body).vx =
      (c5Body.vx - (1 + BOWL_RESTITUTION) *
        (c5Body.vx * (grad_nx (appCollider 1) c5Body / grad_nlen (appCollider 1) c5Body) +
          c5Body.vy * (grad_ny (appCollider 1) c5Body / grad_nlen (appCollider 1) c5Body)) *
        (grad_nx (appCollider 1) c5Body / grad_nlen (appCollider 1) c5Body)) * 0.99 := by
  obtain ⟨_, _, h3, h4, _⟩ :=
    C5_boundary_reflection 1 c5Body c5Body_r18 c5Body_not_funnel c5Body_out c5Body_nl
  exact ⟨c5Body_not_funnel, c5Body_out, c5Body_nl, h3, h4⟩

/-! ### Concrete one-step evaluation helpers (for the C3 counterexample) -/

/-- With a zero substep size, integration of an awake, already-underwater
body at rest reduces to the boundary collision alone. -/
theorem integrate_body_zero_rest (col : EllipseBowlCollider) (waterY simT : ℝ)
    (c : CookieBody) (hw : waterY ≤ c.y) (hu : c.underwater = true) (ha : c.asleep = false)
    (hvx : c.vx = 0) (hvy : c.vy = 0) :
    integrate_body col waterY 0 simT c = col.collide_cookie c := by
  obtain ⟨cn, r, x, y, vx, vy, asl, sc, uw, wp, wf⟩ := c
  simp only at hvx hvy ha hu
  subst hvx hvy ha hu
  simp [integrate_body, apply_underwater_mode, hw, FRICTION_WATER]

/-- One resolution of a level (same y), resting, awake, overlapping pair
d apart with a disturbance-sized overlap: each body is pushed half the
overlap outward along the x axis and both rest counters reset; the zero
relative velocity produces a zero impulse. -/
theorem resolve_eval_rest (θ : ℝ) (a b : CookieBody) (d : ℝ)
    (ha : a.asleep = false) (hb : b.asleep = false)
    (hvxa : a.vx = 0) (hvya : a.vy = 0) (hvxb : b.vx = 0) (hvyb : b.vy = 0)
    (hy : b.y = a.y) (hd : b.x - a.x = d) (hd0 : 0 < d)
    (hd9 : 1e-9 < d * d) (hover : d * d < (a.r + b.r) * (a.r + b.r))
    (hbig : 0.6 < a.r + b.r - d) :
    resolve_circle_collision θ a b =
      ({ a with x := a.x - (a.r + b.r - d) * 0.5, asleep := false, sleepCounter := 0 },
       { b with x := b.x + (a.r + b.r - d) * 0.5, asleep := false, sleepCounter := 0 }) := by
  have hyy : b.y - a.y = 0 := by rw [hy]; ring
  have hdelta : resolve_delta θ a b = (d, 0) := by
    unfold resolve_delta
    rw [hd, hyy]
    rw [if_neg (by simp only [mul_zero, zero_mul, add_zero]; exact not_le.mpr hd9)]
  have hd2 : resolve_dist2 θ a b = d * d := by
    unfold resolve_dist2
    rw [hdelta]
    norm_num
  have hdist : resolve_dist θ a b = d := by
    unfold resolve_dist
    rw [hd2]
    exact Real.sqrt_mul_self hd0.le
  simp only [resolve_circle_collision, hd2, hdist, hdelta]
  rw [if_neg (not_le.mpr hover)]
  rw [div_self hd0.ne', zero_div]
  rw [resolve_positional_even 1 0 (a.r + b.r - d) a b (ha.trans hb.symm)]
  simp only [resolve_wake]
  rw [if_pos (by simpa using hbig)]
  simp only [resolve_impulse, pair_vel_n, impulse_j]
  rw [if_neg (by simp [hvxa, hvxb, hvya, hvyb])]
  simp [hvxa, hvxb, hvya, hvyb, ha, hb, COOKIE_RESTITUTION]

/-- A no-contact pair (working distance at least the radius sum) is left
untouched. -/
theorem resolve_eval_noop (θ : ℝ) (a b : CookieBody)
    (h : resolve_dist2 θ a b ≥ (a.r + b.r) * (a.r + b.r)) :
    resolve_circle_collision θ a b = (a, b) := by
  simp only [resolve_circle_collision]
  rw [if_pos h]

/-- The sleep/wake update on an awake resting body below the rim that has
not yet accumulated enough quiet frames: the counter advances, nothing
else changes. -/
theorem sleep_update_rest (rimY : ℝ) (c : CookieBody) (ha : c.asleep = false)
    (hvx : c.vx = 0) (hvy : c.vy = 0) (hy : rimY + c.r < c.y)
    (hc : c.sleepCounter + 1 < SLEEP_FRAMES) :
    sleep_update rimY c = { c with sleepCounter := c.sleepCounter + 1 } := by
  simp only [sleep_update]
  rw [if_neg (by simp [ha])]
  rw [hvx, hvy]
  rw [if_pos ⟨by rw [show (0:ℝ) * 0 + 0 * 0 = 0 by ring, Real.sqrt_zero]; norm_num [SLEEP_SPEED],
    hy⟩]
  rw [if_neg (by omega)]

/-- A collision pass over a two-body list is one pair resolution. -/
theorem collision_pass_pair (θf : ℕ → ℕ → ℝ) (a b : CookieBody) :
    collision_pass θf [a, b] =
      [(resolve_circle_collision (θf 0 1) a b).1, (resolve_circle_collision (θf 0 1) a b).2] := by
  unfold collision_pass
  rw [show pairIndices ([a, b].length) = [(0, 1)] from rfl]
  simp [doPair, List.set]

/-- A substep on a two-body list: integrate both, then two passes. -/
theorem substep_pair (col : EllipseBowlCollider) (waterY subDt simT : ℝ)
    (θs : ℕ → ℕ → ℕ → ℝ) (a b : CookieBody) :
    substep col waterY subDt simT θs [a, b] =
      collision_pass (θs 1) (collision_pass (θs 0)
        [integrate_body col waterY subDt simT a, integrate_body col waterY subDt simT b]) := by
  unfold substep
  rw [show List.range COLLISION_PASSES = [0, 1] from rfl]
  simp

/-- A zero-dt step on a two-body list: two zero-dt substeps then the
sleep update. -/
theorem step_pair_zero (col : EllipseBowlCollider) (waterY simT : ℝ)
    (θs : ℕ → ℕ → ℕ → ℕ → ℝ) (a b : CookieBody) :
    step col waterY simT 0 θs [a, b] =
      (substep col waterY 0 simT (θs 1) (substep col waterY 0 simT (θs 0) [a, b])).map
        (sleep_update col.rim_y) := by
  unfold step
  rw [show List.range SUBSTEPS = [0, 1] from rfl]
  norm_num

/-! ### A concrete two-body step trace (C3 counterexample)

Two resting awake bodies of radius 14 at the bowl's equator, the right
one exactly on the shrunk ellipse, overlapping by 8.  A step with dt = 0
leaves integration inert, but each substep's pairwise resolution pushes
the right body past the shrunk ellipse; the boundary pass of the second
substep pulls it back, and the final pairwise pass pushes it out again,
so the step ends with the body outside the containment region. -/

noncomputable section

def c3A : CookieBody :=
  { colorName := "red", r := 14, x := 539.8, y := 348.4, vx := 0, vy := 0,
    asleep := false, sleepCounter := 0, underwater := true, wobblePhase := 0, wobbleFreq := 1 }

def c3B : CookieBody :=
  { colorName := "blue", r := 14, x := 559.8, y := 348.4, vx := 0, vy := 0,
    asleep := false, sleepCounter := 0, underwater := true, wobblePhase := 0, wobbleFreq := 1 }

def c3A1 : CookieBody :=
  { colorName := "red", r := 14, x := 535.8, y := 348.4, vx := 0, vy := 0,
    asleep := false, sleepCounter := 0, underwater := true, wobblePhase := 0, wobbleFreq := 1 }

def c3B1 : CookieBody :=
  { colorName := "blue", r := 14, x := 563.8, y := 348.4, vx := 0, vy := 0,
    asleep := false, sleepCounter := 0, underwater := true, wobblePhase := 0, wobbleFreq := 1 }

def c3A2 : CookieBody :=
  { colorName := "red", r := 14, x := 533.8, y := 348.4, vx := 0, vy := 0,
    asleep := false, sleepCounter := 0, underwater := true, wobblePhase := 0, wobbleFreq := 1 }

def c3B2 : CookieBody :=
  { colorName := "blue", r := 14, x := 561.8, y := 348.4, vx := 0, vy := 0,
    asleep := false, sleepCounter := 0, underwater := true, wobblePhase := 0, wobbleFreq := 1 }

def c3A3 : CookieBody :=
  { colorName := "red", r := 14, x := 533.8, y := 348.4, vx := 0, vy := 0,
    asleep := false, sleepCounter := 1, underwater := true, wobblePhase := 0, wobbleFreq := 1 }

def c3B3 : CookieBody :=
  { colorName := "blue", r := 14, x := 561.8, y := 348.4, vx := 0, vy := 0,
    asleep := false, sleepCounter := 1, underwater := true, wobblePhase := 0, wobbleFreq := 1 }

end

theorem c3_collide_A : (appCollider 1).collide_cookie c3A = c3A := by
  refine collide_cookie_inside_eq _ _ ?_ ?_ ?_
  · rw [app_rim]
    norm_num [c3A]
  · rw [app_shrunk_s2_eq 1 c3A (by norm_num [c3A])]
    norm_num [c3A]
  · rw [app_rim]
    norm_num [c3A]

theorem c3_collide_A1 : (appCollider 1).collide_cookie c3A1 = c3A1 := by
  refine collide_cookie_inside_eq _ _ ?_ ?_ ?_
  · rw [app_rim]
    norm_num [c3A1]
  · rw [app_shrunk_s2_eq 1 c3A1 (by norm_num [c3A1])]
    norm_num [c3A1]
  · rw [app_rim]
    norm_num [c3A1]

theorem c3_collide_B : (appCollider 1).collide_cookie c3B = c3B := by
  refine collide_cookie_inside_eq _ _ ?_ ?_ ?_
  · rw [app_rim]
    norm_num [c3B]
  · rw [app_shrunk_s2_eq 1 c3B (by norm_num [c3B])]
    norm_num [c3B]
  · rw [app_rim]
    norm_num [c3B]

theorem c3B1_s2 : shrunk_s2 (appCollider 1) c3B1 = (843 / 823) ^ 2 := by
  rw [app_shrunk_s2_eq 1 c3B1 (by norm_num [c3B1])]
  norm_num [c3B1]

theorem c3B1_out : ¬ shrunk_s2 (appCollider 1) c3B1 ≤ 1 := by
  rw [c3B1_s2]
  norm_num

theorem c3B1_gnx : grad_nx (appCollider 1) c3B1 = 168.6 / 27093.16 := by
  unfold grad_nx
  rw [app_shrunk_a 1 c3B1 (by norm_num [c3B1]), app_cx]
  norm_num [c3B1]

theorem c3B1_gny : grad_ny (appCollider 1) c3B1 = 0 := by
  unfold grad_ny
  rw [app_cy]
  norm_num [c3B1]

theorem c3B1_gnlen : grad_nlen (appCollider 1) c3B1 = 168.6 / 27093.16 := by
  unfold grad_nlen
  rw [c3B1_gnx, c3B1_gny,
    show (168.6 / 27093.16 : ℝ) * (168.6 / 27093.16) + 0 * 0 = (168.6 / 27093.16) ^ 2 by ring]
  exact Real.sqrt_sq (by norm_num)

theorem c3B1_sqrt : Real.sqrt (shrunk_s2 (appCollider 1) c3B1) = 843 / 823 := by
  rw [c3B1_s2]
  exact Real.sqrt_sq (by norm_num)

theorem c3_collide_B1 : (appCollider 1).collide_cookie c3B1 = c3B := by
  have hfun : ¬ c3B1.y < (appCollider 1).rim_y - c3B1.r * 0.6 := by
    rw [app_rim]
    norm_num [c3B1]
  have hnl : ¬ grad_nlen (appCollider 1) c3B1 < 1e-9 := by
    rw [c3B1_gnlen]
    norm_num
  rw [collide_cookie_outside_eq _ _ hfun c3B1_out hnl
    (app_project_no_clamp 1 c3B1 (by norm_num [c3B1]) (not_le.mp c3B1_out))]
  rw [c3B1_sqrt, c3B1_gnx, c3B1_gny, c3B1_gnlen, app_cx, app_cy]
  simp only [c3B1, c3B]
  norm_num [BOWL_RESTITUTION]

theorem c3_res1 (θ : ℝ) : resolve_circle_collision θ c3A c3B = (c3A1, c3B1) := by
  rw [resolve_eval_rest θ c3A c3B 20 rfl rfl rfl rfl rfl rfl rfl
    (by norm_num [c3A, c3B]) (by norm_num) (by norm_num)
    (by norm_num [c3A, c3B]) (by norm_num [c3A, c3B])]
  simp only [c3A, c3B, c3A1, c3B1]
  norm_num

theorem c3_dist2_A1B1 (θ : ℝ) : resolve_dist2 θ c3A1 c3B1 = 784 := by
  unfold resolve_dist2 resolve_delta
  rw [if_neg (by norm_num [c3A1, c3B1])]
  norm_num [c3A1, c3B1]

theorem c3_res1_noop (θ : ℝ) : resolve_circle_collision θ c3A1 c3B1 = (c3A1, c3B1) := by
  refine resolve_eval_noop θ c3A1 c3B1 ?_
  rw [c3_dist2_A1B1]
  norm_num [c3A1, c3B1]

theorem c3_res2 (θ : ℝ) : resolve_circle_collision θ c3A1 c3B = (c3A2, c3B2) := by
  rw [resolve_eval_rest θ c3A1 c3B 24 rfl rfl rfl rfl rfl rfl rfl
    (by norm_num [c3A1, c3B]) (by norm_num) (by norm_num)
    (by norm_num [c3A1, c3B]) (by norm_num [c3A1, c3B])]
  simp only [c3A1, c3B, c3A2, c3B2]
  norm_num

theorem c3_dist2_A2B2 (θ : ℝ) : resolve_dist2 θ c3A2 c3B2 = 784 := by
  unfold resolve_dist2 resolve_delta
  rw [if_neg (by norm_num [c3A2, c3B2])]
  norm_num [c3A2, c3B2]

theorem c3_res2_noop (θ : ℝ) : resolve_circle_collision θ c3A2 c3B2 = (c3A2, c3B2) := by
  refine resolve_eval_noop θ c3A2 c3B2 ?_
  rw [c3_dist2_A2B2]
  norm_num [c3A2, c3B2]

theorem c3_int_A : integrate_body (appCollider 1) water_y 0 0 c3A = c3A := by
  rw [integrate_body_zero_rest _ _ _ _ (by rw [app_water]; norm_num [c3A]) rfl rfl rfl rfl]
  exact c3_collide_A

theorem c3_int_B : integrate_body (appCollider 1) water_y 0 0 c3B = c3B := by
  rw [integrate_body_zero_rest _ _ _ _ (by rw [app_water]; norm_num [c3B]) rfl rfl rfl rfl]
  exact c3_collide_B

theorem c3_int_A1 : integrate_body (appCollider 1) water_y 0 0 c3A1 = c3A1 := by
  rw [integrate_body_zero_rest _ _ _ _ (by rw [app_water]; norm_num [c3A1]) rfl rfl rfl rfl]
  exact c3_collide_A1

theorem c3_int_B1 : integrate_body (appCollider 1) water_y 0 0 c3B1 = c3B := by
  rw [integrate_body_zero_rest _ _ _ _ (by rw [app_water]; norm_num [c3B1]) rfl rfl rfl rfl]
  exact c3_collide_B1

theorem c3_sub1 (θs : ℕ → ℕ → ℕ → ℝ) :
    substep (appCollider 1) water_y 0 0 θs [c3A, c3B] = [c3A1, c3B1] := by
  rw [substep_pair, c3_int_A, c3_int_B, collision_pass_pair, c3_res1,
    show ((c3A1, c3B1).1 : CookieBody) = c3A1 from rfl,
    show ((c3A1, c3B1).2 : CookieBody) = c3B1 from rfl,
    collision_pass_pair, c3_res1_noop]

theorem c3_sub2 (θs : ℕ → ℕ → ℕ → ℝ) :
    substep (appCollider 1) water_y 0 0 θs [c3A1, c3B1] = [c3A2, c3B2] := by
  rw [substep_pair, c3_int_A1, c3_int_B1, collision_pass_pair, c3_res2,
    show ((c3A2, c3B2).1 : CookieBody) = c3A2 from rfl,
    show ((c3A2, c3B2).2 : CookieBody) = c3B2 from rfl,
    collision_pass_pair, c3_res2_noop]

theorem c3_sleep_A : sleep_update (appCollider 1).rim_y c3A2 = c3A3 := by
  rw [sleep_update_rest _ _ rfl rfl rfl (by rw [app_rim]; norm_num [c3A2])
    (by norm_num [c3A2, SLEEP_FRAMES])]
  simp only [c3A2, c3A3]

theorem c3_sleep_B : sleep_update (appCollider 1).rim_y c3B2 = c3B3 := by
  rw [sleep_update_rest _ _ rfl rfl rfl (by rw [app_rim]; norm_num [c3B2])
    (by norm_num [c3B2, SLEEP_FRAMES])]
  simp only [c3B2, c3B3]

theorem c3_step_eval :
    step (appCollider 1) water_y 0 0 (fun _ _ _ _ => 0) [c3A, c3B] = [c3A3, c3B3] := by
  rw [step_pair_zero, c3_sub1, c3_sub2]
  simp only [List.map]
  rw [c3_sleep_A, c3_sleep_B]

/-- Counterexample to C3 as stated: after one full step(dt) call on a
concrete two-body state, the second body (pushed outward by the final
pairwise-resolution pass, which runs after the boundary pass) is neither
in the funnel zone nor inside the shrunk ellipse. -/
theorem C3_counterexample :
    ¬ (((step (appCollider 1) water_y 0 0 (fun _ _ _ _ => 0) [c3A, c3B]).getD 1 c3A).y <
          (appCollider 1).rim_y -
            ((step (appCollider 1) water_y 0 0 (fun _ _ _ _ => 0) [c3A, c3B]).getD 1 c3A).r * 0.6 ∨
        shrunk_s2 (appCollider 1)
          ((step (appCollider 1) water_y 0 0 (fun _ _ _ _ => 0) [c3A, c3B]).getD 1 c3A) ≤ 1) := by
  rw [c3_step_eval, show (([c3A3, c3B3].getD 1 c3A : CookieBody)) = c3B3 from rfl]
  push_neg
  constructor
  · rw [app_rim]
    norm_num [c3B3]
  · rw [app_shrunk_s2_eq 1 c3B3 (by norm_num [c3B3])]
    norm_num [c3B3]

/-- Witness for C3's amended statement at a concrete body. -/
theorem C3_containment_witness :
    (11 ≤ samplePairA.r ∧ samplePairA.r ≤ 18) ∧
    (((appCollider 1).collide_cookie samplePairA).y <
        (appCollider 1).rim_y - ((appCollider 1).collide_cookie samplePairA).r * 0.6 ∨
      shrunk_s2 (appCollider 1) ((appCollider 1).collide_cookie samplePairA) ≤ 1) :=
  ⟨⟨by norm_num [samplePairA], by norm_num [samplePairA]⟩,
    C3_containment_after_collide 1 samplePairA (by norm_num [samplePairA])
      (by norm_num [samplePairA])⟩

end CookieBowl
